import Mathlib

/-!
Verification of the Game of Life simulation engine in src/js/GameOfLife.js.

The engine is shallowly embedded: JavaScript numbers that can become NaN are
modelled by `JsNum`, JavaScript arrays (dense elements plus the sparse
properties created by writes at negative indices) by `JsArray`, and a thrown
TypeError (reading a field of `undefined`) by `Option.none`.  All definitions
are translated directly from the source; the sole spec-side definitions are
`Grid.specNeighborCount` / `Grid.specNextCell`, which transcribe the standard
Game of Life rule stated in the spec for comparison with the code.
-/

namespace GameOfLife

/-- Cell state constant `DEAD_CELL = 0` from the source. -/
def DEAD_CELL : Int := 0

/-- Cell state constant `LIVE_CELL = 1` from the source. -/
def LIVE_CELL : Int := 1

/-- Cell-location constant `TOP_LEFT = 0`. -/
def TOP_LEFT : Nat := 0

/-- Cell-location constant `TOP_RIGHT = 1`. -/
def TOP_RIGHT : Nat := 1

/-- Cell-location constant `BOTTOM_LEFT = 2`. -/
def BOTTOM_LEFT : Nat := 2

/-- Cell-location constant `BOTTOM_RIGHT = 3`. -/
def BOTTOM_RIGHT : Nat := 3

/-- Cell-location constant `TOP = 4`. -/
def TOP : Nat := 4

/-- Cell-location constant `BOTTOM = 5`. -/
def BOTTOM : Nat := 5

/-- Cell-location constant `LEFT = 6`. -/
def LEFT : Nat := 6

/-- Cell-location constant `RIGHT = 7`. -/
def RIGHT : Nat := 7

/-- Cell-location constant `CENTER = 8`. -/
def CENTER : Nat := 8

/-- A JavaScript number restricted to the values this program produces:
either an integer or NaN (the result of arithmetic involving `undefined`). -/
inductive JsNum where
  | num : Int → JsNum
  | nan : JsNum
deriving DecidableEq, Repr

/-- JavaScript `a + v` where `a` is a number and `v` is an array read
(a number or `undefined`): adding `undefined` or propagating NaN gives NaN. -/
def JsNum.addVal : JsNum → Option Int → JsNum
  | .num a, some b => .num (a + b)
  | _, _ => .nan

/-- JavaScript multiplication of a number by the (natural) grid width. -/
def JsNum.mulNat : JsNum → Nat → JsNum
  | .num a, w => .num (a * w)
  | .nan, _ => .nan

/-- JavaScript addition of two numbers, propagating NaN. -/
def JsNum.add : JsNum → JsNum → JsNum
  | .num a, .num b => .num (a + b)
  | _, _ => .nan

/-- JavaScript `a < b` for an integer bound: false when `a` is NaN. -/
def JsNum.ltInt : JsNum → Int → Bool
  | .num a, b => a < b
  | .nan, _ => false

/-- JavaScript `a > b` for an integer bound: false when `a` is NaN. -/
def JsNum.gtInt : JsNum → Int → Bool
  | .num a, b => b < a
  | .nan, _ => false

/-- JavaScript `a === b` for an integer: false when `a` is NaN. -/
def JsNum.eqInt : JsNum → Int → Bool
  | .num a, b => a = b
  | .nan, _ => false

/-- A JavaScript array of numbers as this program uses it: `elems` are the
dense elements at indices `0 .. elems.length - 1`; `props` are the extra
object properties created by writes at other (in this program: negative)
indices, newest first.  Reads at a non-dense index consult `props`
(`undefined`, i.e. `none`, when absent). -/
structure JsArray where
  elems : List Int
  props : List (Int × Int)
deriving DecidableEq, Repr

/-- JavaScript indexed read `a[i]`: the dense element when `0 ≤ i < length`,
otherwise the property stored at key `i`, otherwise `undefined` (`none`). -/
def JsArray.read (a : JsArray) (i : Int) : Option Int :=
  if 0 ≤ i ∧ i.toNat < a.elems.length then a.elems[i.toNat]?
  else a.props.lookup i

/-- JavaScript indexed write `a[i] = v`: updates the dense element when
`0 ≤ i < length`, otherwise records a property at key `i`.  (The program
never writes at an index `≥ length` on its buffers, so the dense part never
grows; for reads the property list is observationally equivalent anyway,
since the program never consults `length`.) -/
def JsArray.write (a : JsArray) (i : Int) (v : Int) : JsArray :=
  if 0 ≤ i ∧ i.toNat < a.elems.length then { a with elems := a.elems.set i.toNat v }
  else { a with props := (i, v) :: a.props }

/-- Reading `a[i]` when the index may be NaN: `a[NaN]` is `undefined`
(no property of the array ever has the key "NaN"). -/
def JsArray.readJs (a : JsArray) : JsNum → Option Int
  | .num i => a.read i
  | .nan => none

/-- Repeated JavaScript writes `a[s] = v0; a[s+1] = v1; ...`, as performed by
the row-major loop of `update` on the `next` buffer. -/
def JsArray.writeFrom (a : JsArray) (s : Nat) : List Int → JsArray
  | [] => a
  | v :: vs => ((a.write s v).writeFrom (s + 1)) vs

/-- Read of a plain dense JavaScript array (one that never received
out-of-range writes, like `cell_types` or the `CellType` tables):
`undefined` (`none`) outside `0 .. length - 1`. -/
def listReadInt (l : List Nat) (i : Int) : Option Nat :=
  if 0 ≤ i then l[i.toNat]? else none

/-- The `CellType` struct from the source: a neighbor count and a flat list
of `(dCol, dRow)` offset pairs. -/
structure CellType where
  numNeighbors : Nat
  cellValues : List Int
deriving DecidableEq, Repr

/-- The `cellLookup` table built by `initCellLookup`, indexed by the nine
cell-location constants (`TOP_LEFT = 0` .. `CENTER = 8`). -/
def cellLookup : List CellType :=
  [ ⟨3, [1, 0, 1, 1, 0, 1]⟩,                              -- TOP_LEFT
    ⟨3, [-1, 0, -1, 1, 0, 1]⟩,                            -- TOP_RIGHT
    ⟨3, [1, 0, 1, -1, 0, -1]⟩,                            -- BOTTOM_LEFT
    ⟨3, [-1, 0, -1, -1, 0, -1]⟩,                          -- BOTTOM_RIGHT
    ⟨5, [-1, 0, -1, 1, 0, 1, 1, 1, 1, 0]⟩,                -- TOP
    ⟨5, [-1, 0, -1, -1, 0, -1, 1, -1, 1, 0]⟩,             -- BOTTOM
    ⟨5, [0, -1, 1, -1, 1, 0, 1, 1, 0, 1]⟩,                -- LEFT
    ⟨5, [0, -1, -1, -1, -1, 0, -1, 1, 0, 1]⟩,             -- RIGHT
    ⟨8, [-1, -1, -1, 0, -1, 1, 0, 1, 1, 1, 1, 0, 1, -1, 0, -1]⟩ ]  -- CENTER

/-- The inner function `_getCellType(row, col)` of the `Grid` constructor,
transcribed with its original comparison chain (including the comparison of
`col` against `height - 1` in the BOTTOM_RIGHT case and the swapped
RIGHT/BOTTOM results). -/
def getCellTypeFun (width height : Nat) (row col : Int) : Nat :=
  if row = 0 ∧ col = 0 then TOP_LEFT
  else if row = 0 ∧ col = (width : Int) - 1 then TOP_RIGHT
  else if row = (height : Int) - 1 ∧ col = 0 then BOTTOM_LEFT
  else if row = (height : Int) - 1 ∧ col = (height : Int) - 1 then BOTTOM_RIGHT
  else if row = 0 then TOP
  else if col = 0 then LEFT
  else if row = (height : Int) - 1 then RIGHT
  else if col = (width : Int) - 1 then BOTTOM
  else CENTER

/-- Row-major array fill: the list whose entry at index `i * w + j`
(for `i < h`, `j < w`) is `f i j`, exactly as produced by the constructor's
double loop `for i { for j { a[i*w+j] = f(i,j) } }` starting from an empty
array. -/
def rowMajor (w h : Nat) (f : Nat → Nat → α) : List α :=
  ((List.range h).map (fun i => (List.range w).map (fun j => f i j))).flatten

/-- The `cell_types` cache filled by the `Grid` constructor. -/
def mkCellTypes (w h : Nat) : List Nat :=
  rowMajor w h (fun i j => getCellTypeFun w h i j)

/-- The state of a `Grid` object: the two cell buffers, the dimensions, the
newborn report of the latest update, and the cell classification cache. -/
structure Grid where
  width : Nat
  height : Nat
  cells : JsArray
  next : JsArray
  newborns : List (List Nat)
  cell_types : List Nat
deriving DecidableEq, Repr

/-- The stored field `_num_cells = (width * height) - 1`, computed once by
the constructor (JavaScript subtraction, no truncation). -/
def Grid.numCells (g : Grid) : Int := (g.width * g.height : Nat) - 1

/-- The `Grid(width, height)` constructor: both buffers all DEAD, the
classification cache filled from `_getCellType`, no newborns. -/
def Grid.init (width height : Nat) : Grid :=
  { width := width
    height := height
    cells := ⟨rowMajor width height (fun _ _ => DEAD_CELL), []⟩
    next := ⟨rowMajor width height (fun _ _ => DEAD_CELL), []⟩
    newborns := []
    cell_types := mkCellTypes width height }

/-- `Grid.isValidCell(row, col)` exactly as written in the source:
`(col < this.width) && (((row * width) + col) < this._num_cells)`. -/
def Grid.isValidCell (g : Grid) (row col : Int) : Bool :=
  (col < (g.width : Int)) && (row * (g.width : Int) + col < g.numCells)

/-- `Grid.setCell(row, col, value)`: writes the current buffer when
`isValidCell` holds, otherwise does nothing. -/
def Grid.setCell (g : Grid) (row col : Int) (value : Int) : Grid :=
  if g.isValidCell row col then
    { g with cells := g.cells.write (row * (g.width : Int) + col) value }
  else g

/-- `Grid.getCell(row, col)`: the current buffer entry when `isValidCell`
holds, otherwise the sentinel `-1`. -/
def Grid.getCell (g : Grid) (row col : Int) : Option Int :=
  if g.isValidCell row col then g.cells.read (row * (g.width : Int) + col)
  else some (-1)

/-- `Grid.determineCellType(row, col)`: the cached classification at index
`row * width + col` (`undefined`, i.e. `none`, outside the cache). -/
def Grid.determineCellType (g : Grid) (row col : Int) : Option Nat :=
  listReadInt g.cell_types (row * (g.width : Int) + col)

/-- The neighbor-summing loop of `calcLivingNeighbors` for a given
`CellType`: for each `k < numNeighbors` it reads the offsets at positions
`2k` and `2k + 1` of `cellValues`, forms `index = neighborRow * width +
neighborCol`, and accumulates `this.cells[index]` into the running sum. -/
def Grid.calcLoop (g : Grid) (cellsToCheck : CellType) (row col : Int) : JsNum :=
  (List.range cellsToCheck.numNeighbors).foldl
    (fun numLivingNeighbors k =>
      let neighborCol := JsNum.addVal (.num col) (cellsToCheck.cellValues[2 * k]?)
      let neighborRow := JsNum.addVal (.num row) (cellsToCheck.cellValues[2 * k + 1]?)
      let index := (neighborRow.mulNat g.width).add neighborCol
      numLivingNeighbors.addVal (g.cells.readJs index))
    (.num 0)

/-- `Grid.calcLivingNeighbors(row, col)`: looks up the cell type and sums the
neighbors listed in the corresponding `cellLookup` entry.  `none` models the
TypeError thrown when `determineCellType` yields `undefined` (and hence
`cellLookup[undefined].numNeighbors` faults). -/
def Grid.calcLivingNeighbors (g : Grid) (row col : Int) : Option JsNum :=
  match g.determineCellType row col with
  | none => none
  | some cellType =>
    match cellLookup[cellType]? with
    | none => none
    | some cellsToCheck => some (g.calcLoop cellsToCheck row col)

/-- The per-cell case analysis in the body of `update`: given `testCell`
(the `getCell` result) and the living-neighbor count, returns the value
written to `next[(i*width)+j]` together with `some j` when the newborn push
`this.newborns[i].push(j)` runs. -/
def lifeRule (testCell : Option Int) (numLivingNeighbors : JsNum) (j : Nat) :
    Int × Option Nat :=
  if testCell = some LIVE_CELL then
    if numLivingNeighbors.ltInt 2 || numLivingNeighbors.gtInt 3 then
      (DEAD_CELL, none)
    else
      (LIVE_CELL, none)
  else if numLivingNeighbors.eqInt 3 then
    (LIVE_CELL, some j)
  else
    (DEAD_CELL, none)

/-- One iteration of the double loop in `update` at row `i`, column `j`:
computes the neighbor count and applies the rule.  The loop reads only the
current buffer, so the grid argument is unchanged throughout the pass. -/
def Grid.cellStep (g : Grid) (i j : Nat) : Option (Int × Option Nat) :=
  (g.calcLivingNeighbors i j).map (fun n => lifeRule (g.getCell i j) n j)

/-- `Grid.update()`: resets the newborn report, runs the double loop writing
`next[(i*width)+j]` row-major for all `i < height`, `j < width`, then swaps
the `cells` and `next` buffers.  `none` models a thrown TypeError. -/
def Grid.update (g : Grid) : Option Grid :=
  match (List.range g.height).mapM
      (fun i => (List.range g.width).mapM (fun j => g.cellStep i j)) with
  | none => none
  | some rows =>
    some { g with
      cells := g.next.writeFrom 0 ((rows.map (fun r => r.map Prod.fst)).flatten)
      next := g.cells
      newborns := rows.map (fun r => r.filterMap Prod.snd) }

/-- Derived view of a flat `cellValues` table as `(dCol, dRow)` pairs, used
only to state properties about the offset tables. -/
def offsetPairs : List Int → List (Int × Int)
  | dc :: dr :: rest => (dc, dr) :: offsetPairs rest
  | _ => []

/-- The eight Moore-neighborhood offsets `(dRow, dCol)`. -/
def mooreOffsets : List (Int × Int) :=
  [(-1, -1), (-1, 0), (-1, 1), (0, -1), (0, 1), (1, -1), (1, 0), (1, 1)]

/-- The live-neighbor count as the spec defines it (spec section 4.2):
the number of LIVE cells among the in-range Moore neighbors of `(r, c)`,
read from the current buffer. -/
def Grid.specNeighborCount (g : Grid) (r c : Int) : Nat :=
  mooreOffsets.countP (fun d =>
    decide (0 ≤ r + d.1 ∧ r + d.1 < (g.height : Int) ∧
            0 ≤ c + d.2 ∧ c + d.2 < (g.width : Int)) &&
    decide (g.cells.read ((r + d.1) * (g.width : Int) + (c + d.2)) = some LIVE_CELL))

/-- The next state of a cell under the standard Game of Life rule as stated
in the spec (spec section 4.2), applied to the current buffer. -/
def Grid.specNextCell (g : Grid) (r c : Int) : Int :=
  if g.cells.read (r * (g.width : Int) + c) = some LIVE_CELL then
    if g.specNeighborCount r c < 2 ∨ 3 < g.specNeighborCount r c then DEAD_CELL
    else LIVE_CELL
  else if g.specNeighborCount r c = 3 then LIVE_CELL
  else DEAD_CELL

/-- The cell contents after `update`, for stating buffer-level results
without existential quantifiers. -/
def updElems (g : Grid) : Option (List Int) :=
  g.update.map (fun r => r.cells.elems)

/-- The cell contents after two consecutive `update` calls. -/
def upd2Elems (g : Grid) : Option (List Int) :=
  (g.update.bind Grid.update).map (fun r => r.cells.elems)

/-- The horizontal blinker value table: LIVE exactly at (2,1), (2,2), (2,3). -/
def bH (r c : Nat) : Int :=
  if (r = 2 ∧ c = 1) ∨ (r = 2 ∧ c = 2) ∨ (r = 2 ∧ c = 3) then LIVE_CELL else DEAD_CELL

/-- The vertical blinker value table: LIVE exactly at (1,2), (2,2), (3,2). -/
def bV (r c : Nat) : Int :=
  if (r = 1 ∧ c = 2) ∨ (r = 2 ∧ c = 2) ∨ (r = 3 ∧ c = 2) then LIVE_CELL else DEAD_CELL

/-- The row-major cell buffer holding the horizontal blinker on a `w × h`
grid and nothing else. -/
def blinkerH (w h : Nat) : List Int := rowMajor w h bH

/-- The row-major cell buffer holding the vertical blinker on a `w × h`
grid and nothing else. -/
def blinkerV (w h : Nat) : List Int := rowMajor w h bV

/-- Every entry of both cell buffers is DEAD or LIVE (claim C9's invariant). -/
def Grid.buffersBinary (g : Grid) : Prop :=
  (∀ x ∈ g.cells.elems, x = DEAD_CELL ∨ x = LIVE_CELL) ∧
  (∀ x ∈ g.next.elems, x = DEAD_CELL ∨ x = LIVE_CELL)

instance (g : Grid) : Decidable g.buffersBinary := by
  unfold Grid.buffersBinary; infer_instance

/-- C1: the claim fails on the code.  On the 3×3 grid with LIVE cells at
(1,0), (1,1), (2,0), position (2,1) is DEAD with exactly three live Moore
neighbors in the pre-update current buffer, so the claimed standard rule
makes it LIVE; but `update` leaves it DEAD (its resulting buffer is row-major
`[0,0,0, 1,1,1, 1,0,0]`, with entry 7 = cell (2,1) DEAD) and reports no
newborn at (2,1) — the bottom-row cell is classified RIGHT, whose offsets
read past the buffer and make the neighbor count NaN.  (The LIVE entry 5 =
cell (1,2) is likewise a rule violation: the code births it from a wrapped
neighbor count of 3, while its true count is 2.) -/
theorem c1_update_breaks_standard_rule :
    updElems ((((Grid.init 3 3).setCell 1 0 1).setCell 1 1 1).setCell 2 0 1) =
      some [0, 0, 0, 1, 1, 1, 1, 0, 0] ∧
    ((((Grid.init 3 3).setCell 1 0 1).setCell 1 1 1).setCell 2 0 1).cells.read
      (2 * 3 + 1) = some DEAD_CELL ∧
    ((((Grid.init 3 3).setCell 1 0 1).setCell 1 1 1).setCell 2 0 1).specNeighborCount
      2 1 = 3 ∧
    ((((Grid.init 3 3).setCell 1 0 1).setCell 1 1 1).setCell 2 0 1).specNextCell
      2 1 = LIVE_CELL ∧
    ((((Grid.init 3 3).setCell 1 0 1).setCell 1 1 1).setCell 2 0 1).update.map
      Grid.newborns = some [[], [2], []] := by
  decide

/-- C2: the claim fails on the code.  On a 3×3 grid, `isValidCell` rejects
the bottom-right in-range position (2,2) (because `_num_cells` is
`width*height - 1` and the test is strict) and accepts the out-of-range
position (-1,0) (no lower bound is checked). -/
theorem c2_isValidCell_wrong_bounds :
    (Grid.init 3 3).isValidCell 2 2 = false ∧
    (Grid.init 3 3).isValidCell (-1) 0 = true := by
  decide

/-- C3: the claim fails on the code.  On a 5×5 grid the stored classification
of the bottom-row non-corner position (4,2) is RIGHT, not BOTTOM as the claim
requires (the `_getCellType` chain returns RIGHT for `row = height-1` and
BOTTOM for `col = width-1`). -/
theorem c3_bottom_row_classified_right :
    (Grid.init 5 5).determineCellType 4 2 = some RIGHT ∧ RIGHT ≠ BOTTOM := by
  decide

/-- C4: the claim fails on the code.  On a 5×5 grid the position (4,2) is
classified RIGHT, whose offset table contains `(dCol, dRow) = (-1, 1)`;
applying it to (4,2) yields row 5, which is not below the height 5, and the
neighbor loop at (4,2) accordingly reads outside the cell buffer, producing
the NaN count (impossible from in-range reads of an all-number buffer). -/
theorem c4_offsets_point_out_of_range :
    (Grid.init 5 5).determineCellType 4 2 = some RIGHT ∧
    (cellLookup[RIGHT]?).map (fun ct => offsetPairs ct.cellValues) =
      some [(0, -1), (-1, -1), (-1, 0), (-1, 1), (0, 1)] ∧
    ¬((4 : Int) + 1 < ((Grid.init 5 5).height : Int)) ∧
    (Grid.init 5 5).calcLivingNeighbors 4 2 = some JsNum.nan := by
  decide

/-- C7: the claim fails on the code.  The position (-1,2) is out of range,
yet `isValidCell` accepts it, so `setCell (-1) 2 LIVE` writes the array
property at index -1: the grid object changes, and the write is observable
through a later `getCell (-1) 2`, which returns LIVE instead of the previous
`undefined`.  (The dense buffer elements stay unchanged; the side effect is
the new array property.) -/
theorem c7_setCell_negative_side_effect :
    (Grid.init 3 3).setCell (-1) 2 LIVE_CELL ≠ Grid.init 3 3 ∧
    ((Grid.init 3 3).setCell (-1) 2 LIVE_CELL).getCell (-1) 2 = some LIVE_CELL ∧
    (Grid.init 3 3).getCell (-1) 2 = none ∧
    ((Grid.init 3 3).setCell (-1) 2 LIVE_CELL).cells.elems =
      (Grid.init 3 3).cells.elems := by
  decide

/-- C8: the claim fails on the code.  On a fresh 3×3 grid the in-range
position (2,2) stores DEAD in the current buffer, but `getCell` returns the
sentinel -1 for it (because `isValidCell` wrongly rejects the last cell),
instead of the stored state required by the claim. -/
theorem c8_getCell_last_cell_sentinel :
    (Grid.init 3 3).getCell 2 2 = some (-1) ∧
    (Grid.init 3 3).cells.read (2 * 3 + 2) = some DEAD_CELL ∧
    (-1 : Int) ≠ DEAD_CELL := by
  decide

/-! ### Generic lemmas about the JavaScript-semantics helpers -/

theorem JsNum.addVal_none (x : JsNum) : x.addVal none = .nan := by
  cases x <;> rfl

theorem JsNum.addVal_nan (v : Option Int) : JsNum.nan.addVal v = .nan := by
  cases v <;> rfl

theorem lookup_none {ps : List (Int × Int)} {i : Int} (h : ∀ p ∈ ps, p.1 ≠ i) :
    ps.lookup i = none := by
  induction ps with
  | nil => rfl
  | cons q t ih =>
    have hq : q.1 ≠ i := h q (List.mem_cons_self q t)
    have hne : (i == q.1) = false := by simp [Ne.symm hq]
    simp only [List.lookup, hne]
    exact ih (fun p hp => h p (List.mem_cons_of_mem q hp))

theorem JsArray.read_dense (a : JsArray) (n : Nat) (hn : n < a.elems.length) :
    a.read (n : Int) = a.elems[n]? := by
  have h0 : (0 : Int) ≤ (n : Int) := Int.natCast_nonneg n
  have ht : ((n : Int)).toNat = n := Int.toNat_natCast n
  simp [JsArray.read, h0, ht, hn]

theorem JsArray.read_oob (a : JsArray) (hprops : ∀ p ∈ a.props, p.1 < 0)
    (i : Int) (hi : (a.elems.length : Int) ≤ i) : a.read i = none := by
  have hd : ¬(0 ≤ i ∧ i.toNat < a.elems.length) := by
    intro hcon
    have := hcon.2
    omega
  simp only [JsArray.read, hd, if_false]
  exact lookup_none (fun p hp => by have := hprops p hp; omega)

theorem JsArray.writeFrom_length (vs : List Int) :
    ∀ (a : JsArray) (s : Nat), ((a.writeFrom s) vs).elems.length = a.elems.length := by
  induction vs with
  | nil => intro a s; rfl
  | cons v t ih =>
    intro a s
    show ((a.write s v).writeFrom (s + 1) t).elems.length = a.elems.length
    rw [ih]
    unfold JsArray.write
    split <;> simp

theorem JsArray.write_dense_props (a : JsArray) (s : Nat) (v : Int)
    (hs : s < a.elems.length) : (a.write (s : Int) v).props = a.props := by
  have h0 : (0 : Int) ≤ (s : Int) := Int.natCast_nonneg s
  have ht : ((s : Int)).toNat = s := Int.toNat_natCast s
  simp [JsArray.write, h0, ht, hs]

theorem JsArray.write_dense_elems (a : JsArray) (s : Nat) (v : Int)
    (hs : s < a.elems.length) : (a.write (s : Int) v).elems = a.elems.set s v := by
  have h0 : (0 : Int) ≤ (s : Int) := Int.natCast_nonneg s
  have ht : ((s : Int)).toNat = s := Int.toNat_natCast s
  simp [JsArray.write, h0, ht, hs]

theorem JsArray.writeFrom_props (vs : List Int) :
    ∀ (a : JsArray) (s : Nat), s + vs.length ≤ a.elems.length →
      ((a.writeFrom s) vs).props = a.props := by
  induction vs with
  | nil => intro a s _; rfl
  | cons v t ih =>
    intro a s hlen
    have hs : s < a.elems.length := by simp at hlen; omega
    show ((a.write s v).writeFrom (s + 1) t).props = a.props
    rw [ih]
    · exact a.write_dense_props s v hs
    · rw [JsArray.write_dense_elems a s v hs, List.length_set]
      simp at hlen ⊢
      omega

theorem JsArray.writeFrom_getElem? (vs : List Int) :
    ∀ (a : JsArray) (s : Nat), s + vs.length ≤ a.elems.length → ∀ n : Nat,
      ((a.writeFrom s) vs).elems[n]? =
        if s ≤ n ∧ n < s + vs.length then vs[n - s]? else a.elems[n]? := by
  induction vs with
  | nil =>
    intro a s _ n
    rw [if_neg (by simp)]
    rfl
  | cons v t ih =>
    intro a s hlen n
    have hs : s < a.elems.length := by simp at hlen; omega
    have hset : (a.write s v).elems = a.elems.set s v :=
      JsArray.write_dense_elems a s v hs
    have hlen1 : (s + 1) + t.length ≤ (a.write s v).elems.length := by
      rw [hset, List.length_set]
      simp at hlen
      omega
    show ((a.write s v).writeFrom (s + 1) t).elems[n]? = _
    rw [ih (a.write s v) (s + 1) hlen1 n, hset]
    by_cases h1 : s + 1 ≤ n ∧ n < s + 1 + t.length
    · have h2 : s ≤ n ∧ n < s + (v :: t).length := by simp; omega
      rw [if_pos h1, if_pos h2]
      obtain ⟨k, hk⟩ : ∃ k, n - s = k + 1 := ⟨n - s - 1, by omega⟩
      rw [hk]
      have hk1 : n - (s + 1) = k := by omega
      rw [hk1]
      simp
    · rw [if_neg h1]
      by_cases h3 : n = s
      · subst h3
        have h2 : n ≤ n ∧ n < n + (v :: t).length := by simp
        rw [if_pos h2, List.getElem?_set]
        simp [hs]
      · have h2 : ¬(s ≤ n ∧ n < s + (v :: t).length) := by simp; simp at h1; omega
        rw [if_neg h2, List.getElem?_set]
        simp [Ne.symm h3]

theorem JsArray.writeFrom_full (vs : List Int) (a : JsArray)
    (h : a.elems.length = vs.length) :
    ((a.writeFrom 0) vs).elems = vs ∧ ((a.writeFrom 0) vs).props = a.props := by
  constructor
  · apply List.ext_getElem?
    intro n
    rw [JsArray.writeFrom_getElem? vs a 0 (by omega) n]
    by_cases hn : n < vs.length
    · rw [if_pos ⟨Nat.zero_le n, by omega⟩]
      simp
    · rw [if_neg (by omega)]
      rw [List.getElem?_eq_none (by omega), List.getElem?_eq_none (by omega)]
  · exact JsArray.writeFrom_props vs a 0 (by omega)

theorem JsArray.writeFrom_mem {Q : Int → Prop} (vs : List Int) :
    ∀ (a : JsArray) (s : Nat), (∀ x ∈ a.elems, Q x) → (∀ v ∈ vs, Q v) →
      ∀ x ∈ ((a.writeFrom s) vs).elems, Q x := by
  induction vs with
  | nil => intro a s ha _ x hx; exact ha x hx
  | cons v t ih =>
    intro a s ha hv x hx
    refine ih (a.write s v) (s + 1) ?_ (fun y hy => hv y (List.mem_cons_of_mem v hy)) x hx
    intro y hy
    unfold JsArray.write at hy
    split at hy
    · rcases List.mem_or_eq_of_mem_set hy with h | h
      · exact ha y h
      · exact h ▸ hv v (List.mem_cons_self v t)
    · exact ha y hy

/-! ### Lemmas about `Option`-valued `mapM` -/

theorem mapM_some_len {α β : Type} (f : α → Option β) :
    ∀ (l : List α) (r : List β), l.mapM f = some r → r.length = l.length := by
  intro l
  induction l with
  | nil =>
    intro r h
    rw [List.mapM_nil] at h
    simp only [Option.pure_def, Option.some.injEq] at h
    simp [← h]
  | cons a t ih =>
    intro r h
    rw [List.mapM_cons] at h
    cases hfa : f a with
    | none => rw [hfa] at h; simp at h
    | some y =>
      rw [hfa] at h
      cases hmt : t.mapM f with
      | none => rw [hmt] at h; simp at h
      | some ys =>
        rw [hmt] at h
        simp at h
        rw [← h]
        simp [ih ys hmt]

theorem mapM_some_mem {α β : Type} (f : α → Option β) :
    ∀ (l : List α) (r : List β), l.mapM f = some r →
      ∀ y ∈ r, ∃ x ∈ l, f x = some y := by
  intro l
  induction l with
  | nil =>
    intro r h y hy
    rw [List.mapM_nil] at h
    simp only [Option.pure_def, Option.some.injEq] at h
    rw [← h] at hy
    simp at hy
  | cons a t ih =>
    intro r h y hy
    rw [List.mapM_cons] at h
    cases hfa : f a with
    | none => rw [hfa] at h; simp at h
    | some z =>
      rw [hfa] at h
      cases hmt : t.mapM f with
      | none => rw [hmt] at h; simp at h
      | some ys =>
        rw [hmt] at h
        simp at h
        rw [← h] at hy
        rcases List.mem_cons.mp hy with h1 | h1
        · exact ⟨a, List.mem_cons_self a t, h1 ▸ hfa⟩
        · obtain ⟨x, hx, hfx⟩ := ih ys hmt y h1
          exact ⟨x, List.mem_cons_of_mem a hx, hfx⟩

theorem mapM_some_of {α β γ : Type} (f : α → Option β) (proj : β → γ) (fv : α → γ) :
    ∀ l : List α, (∀ x ∈ l, ∃ p, f x = some p ∧ proj p = fv x) →
      ∃ r, l.mapM f = some r ∧ r.map proj = l.map fv := by
  intro l
  induction l with
  | nil => intro _; exact ⟨[], by rw [List.mapM_nil]; rfl, by simp⟩
  | cons a t ih =>
    intro h
    obtain ⟨p, hp, hproj⟩ := h a (List.mem_cons_self a t)
    obtain ⟨r, hr, hmap⟩ := ih (fun x hx => h x (List.mem_cons_of_mem a hx))
    refine ⟨p :: r, ?_, by simp [hmap, hproj]⟩
    rw [List.mapM_cons, hp, hr]
    rfl

theorem filterMap_snd_sublist (f : Nat → Option (Int × Option Nat)) :
    ∀ (l : List Nat) (r : List (Int × Option Nat)), l.mapM f = some r →
      (∀ j p, f j = some p → p.2 = none ∨ p.2 = some j) →
      (r.filterMap Prod.snd).Sublist l := by
  intro l
  induction l with
  | nil =>
    intro r h _
    rw [List.mapM_nil] at h
    simp only [Option.pure_def, Option.some.injEq] at h
    simp [← h]
  | cons a t ih =>
    intro r h hsnd
    rw [List.mapM_cons] at h
    cases hfa : f a with
    | none => rw [hfa] at h; simp at h
    | some p =>
      rw [hfa] at h
      cases hmt : t.mapM f with
      | none => rw [hmt] at h; simp at h
      | some ys =>
        rw [hmt] at h
        simp at h
        rw [← h]
        rcases hsnd a p hfa with h2 | h2
        · rw [List.filterMap_cons, h2]
          exact (ih ys hmt hsnd).cons a
        · rw [List.filterMap_cons, h2]
          exact (ih ys hmt hsnd).cons₂ a

/-! ### Lemmas about `rowMajor` -/

theorem rowMajor_succ {α : Type} (w h : Nat) (f : Nat → Nat → α) :
    rowMajor w (h + 1) f = rowMajor w h f ++ (List.range w).map (f h) := by
  unfold rowMajor
  rw [List.range_succ, List.map_append, List.flatten_append]
  simp

theorem rowMajor_length {α : Type} (w h : Nat) (f : Nat → Nat → α) :
    (rowMajor w h f).length = h * w := by
  induction h with
  | zero => simp [rowMajor]
  | succ n ih =>
    rw [rowMajor_succ, List.length_append, ih]
    simp [Nat.succ_mul]

theorem idx_lt_of {r c w h : Nat} (hr : r < h) (hc : c < w) : r * w + c < h * w := by
  calc r * w + c < r * w + w := by omega
  _ = (r + 1) * w := (Nat.succ_mul r w).symm
  _ ≤ h * w := Nat.mul_le_mul_right w hr

theorem rowMajor_getElem? {α : Type} (w h : Nat) (f : Nat → Nat → α)
    (r c : Nat) (hr : r < h) (hc : c < w) :
    (rowMajor w h f)[r * w + c]? = some (f r c) := by
  induction h with
  | zero => omega
  | succ n ih =>
    rw [rowMajor_succ]
    by_cases h1 : r < n
    · rw [List.getElem?_append_left (by rw [rowMajor_length]; exact idx_lt_of h1 hc)]
      exact ih h1
    · have hrn : r = n := by omega
      subst hrn
      rw [List.getElem?_append_right (by rw [rowMajor_length]; exact Nat.le_add_right _ _)]
      rw [rowMajor_length]
      have : r * w + c - r * w = c := by omega
      rw [this, List.getElem?_map, List.getElem?_range hc]
      rfl

/-! ### Coordinate-level lemmas about the grid operations -/

theorem idx_corner_lt {i j w h : Nat} (hi : i < h) (hj : j < w)
    (hne : ¬(i + 1 = h ∧ j + 1 = w)) : i * w + j + 1 < h * w := by
  rcases Nat.lt_or_ge (i + 1) h with h1 | h1
  · have e1 : i * w + j + 1 ≤ (i + 1) * w := by rw [Nat.succ_mul]; omega
    have e2 : (i + 1) * w ≤ (h - 1) * w := Nat.mul_le_mul_right w (by omega)
    have e3 : (h - 1) * w < h * w := by
      calc (h - 1) * w < (h - 1) * w + w := by omega
      _ = (h - 1 + 1) * w := (Nat.succ_mul _ _).symm
      _ = h * w := by congr 1; omega
    omega
  · have hieq : i + 1 = h := by omega
    have hj1 : j + 1 < w := by
      rcases Nat.lt_or_ge (j + 1) w with h2 | h2
      · exact h2
      · exact absurd ⟨hieq, by omega⟩ hne
    have e1 : i * w + j + 1 < (i + 1) * w := by rw [Nat.succ_mul]; omega
    rw [hieq] at e1
    exact e1

theorem Grid.read_at (g : Grid) (w h : Nat) (V : Nat → Nat → Int)
    (hel : g.cells.elems = rowMajor w h V)
    (r c : Nat) (hr : r < h) (hc : c < w) {E : Int}
    (hE : E = ((r * w + c : Nat) : Int)) :
    g.cells.read E = some (V r c) := by
  subst hE
  have hlen : g.cells.elems.length = h * w := by rw [hel, rowMajor_length]
  rw [JsArray.read_dense g.cells (r * w + c) (by rw [hlen]; exact idx_lt_of hr hc)]
  rw [hel, rowMajor_getElem? w h V r c hr hc]

theorem Grid.read_oob_at (g : Grid) (w h : Nat)
    (hlen : g.cells.elems.length = h * w)
    (hprops : ∀ p ∈ g.cells.props, p.1 < 0)
    (m : Nat) (hm : h * w ≤ m) {E : Int} (hE : E = (m : Int)) :
    g.cells.read E = none := by
  subst hE
  apply JsArray.read_oob g.cells hprops
  rw [hlen]
  exact_mod_cast hm

theorem Grid.dct (g : Grid) (w h : Nat) (hgw : g.width = w)
    (hct : g.cell_types = mkCellTypes w h) (i j : Nat) (hi : i < h) (hj : j < w) :
    g.determineCellType i j = some (getCellTypeFun w h i j) := by
  unfold Grid.determineCellType listReadInt
  rw [hgw, hct]
  have hidx : ((i : Int) * (w : Int) + (j : Int)) = ((i * w + j : Nat) : Int) := by
    push_cast; ring
  rw [hidx, if_pos (Int.natCast_nonneg _), Int.toNat_natCast]
  unfold mkCellTypes
  rw [rowMajor_getElem? w h _ i j hi hj]

theorem Grid.isValidCell_true (g : Grid) (w h : Nat)
    (hgw : g.width = w) (hgh : g.height = h)
    (i j : Nat) (hi : i < h) (hj : j < w) (hne : ¬(i + 1 = h ∧ j + 1 = w)) :
    g.isValidCell i j = true := by
  have key : i * w + j + 1 < h * w := idx_corner_lt hi hj hne
  unfold Grid.isValidCell Grid.numCells
  rw [hgw, hgh]
  have hidx : ((i : Int) * (w : Int) + (j : Int)) = ((i * w + j : Nat) : Int) := by
    push_cast; ring
  rw [hidx]
  have hmul : w * h = h * w := Nat.mul_comm w h
  rw [hmul]
  simp only [Bool.and_eq_true, decide_eq_true_eq]
  constructor
  · exact_mod_cast hj
  · omega

theorem Grid.isValidCell_corner_false (g : Grid) (w h : Nat)
    (hgw : g.width = w) (hgh : g.height = h) (hw : 0 < w) (hh : 0 < h) :
    g.isValidCell ((h - 1 : Nat)) ((w - 1 : Nat)) = false := by
  obtain ⟨w1, rfl⟩ : ∃ w1, w = w1 + 1 := ⟨w - 1, by omega⟩
  obtain ⟨h1, rfl⟩ : ∃ h1, h = h1 + 1 := ⟨h - 1, by omega⟩
  unfold Grid.isValidCell Grid.numCells
  rw [hgw, hgh]
  simp only [Nat.add_sub_cancel]
  have key : ((h1 : Nat) : Int) * ((w1 + 1 : Nat) : Int) + ((w1 : Nat) : Int) =
      (((w1 + 1) * (h1 + 1) : Nat) : Int) - 1 := by push_cast; ring
  rw [key]
  simp

theorem Grid.getCell_at (g : Grid) (w h : Nat) (V : Nat → Nat → Int)
    (hgw : g.width = w) (hgh : g.height = h)
    (hel : g.cells.elems = rowMajor w h V)
    (i j : Nat) (hi : i < h) (hj : j < w) (hne : ¬(i + 1 = h ∧ j + 1 = w)) :
    g.getCell i j = some (V i j) := by
  unfold Grid.getCell
  rw [Grid.isValidCell_true g w h hgw hgh i j hi hj hne, if_pos rfl, hgw]
  exact Grid.read_at g w h V hel i j hi hj (by push_cast; ring)

theorem Grid.getCell_corner (g : Grid) (w h : Nat)
    (hgw : g.width = w) (hgh : g.height = h) (hw : 0 < w) (hh : 0 < h) :
    g.getCell ((h - 1 : Nat)) ((w - 1 : Nat)) = some (-1) := by
  unfold Grid.getCell
  rw [Grid.isValidCell_corner_false g w h hgw hgh hw hh]
  simp

theorem Grid.getCell_not_live (g : Grid) (w h : Nat) (V : Nat → Nat → Int)
    (hgw : g.width = w) (hgh : g.height = h)
    (hel : g.cells.elems = rowMajor w h V)
    (i j : Nat) (hi : i < h) (hj : j < w) (hV : V i j ≠ LIVE_CELL) :
    g.getCell i j ≠ some LIVE_CELL := by
  by_cases hc : i + 1 = h ∧ j + 1 = w
  · have hi1 : i = h - 1 := by omega
    have hj1 : j = w - 1 := by omega
    rw [hi1, hj1, Grid.getCell_corner g w h hgw hgh (by omega) (by omega)]
    simp [LIVE_CELL]
  · rw [Grid.getCell_at g w h V hgw hgh hel i j hi hj hc]
    simp [hV]

/-! ### Facts about the update rule body -/

theorem lifeRule_not_live_num (t : Option Int) (ht : t ≠ some LIVE_CELL)
    {s : Int} (hs : s ≠ 3) (j : Nat) : lifeRule t (.num s) j = (DEAD_CELL, none) := by
  simp [lifeRule, ht, JsNum.eqInt, hs]

theorem lifeRule_not_live_three (t : Option Int) (ht : t ≠ some LIVE_CELL)
    (j : Nat) : lifeRule t (.num 3) j = (LIVE_CELL, some j) := by
  simp [lifeRule, ht, JsNum.eqInt]

theorem lifeRule_not_live_nan (t : Option Int) (ht : t ≠ some LIVE_CELL)
    (j : Nat) : lifeRule t .nan j = (DEAD_CELL, none) := by
  simp [lifeRule, ht, JsNum.eqInt]

theorem lifeRule_live_mid {s : Int} (h2 : 2 ≤ s) (h3 : s ≤ 3) (j : Nat) :
    lifeRule (some LIVE_CELL) (.num s) j = (LIVE_CELL, none) := by
  have e1 : ¬(s < 2) := by omega
  have e2 : ¬(3 < s) := by omega
  simp [lifeRule, JsNum.ltInt, JsNum.gtInt, e1, e2]

theorem lifeRule_live_lo {s : Int} (h : s < 2) (j : Nat) :
    lifeRule (some LIVE_CELL) (.num s) j = (DEAD_CELL, none) := by
  simp [lifeRule, JsNum.ltInt, JsNum.gtInt, h]

theorem lifeRule_live_hi {s : Int} (h : 3 < s) (j : Nat) :
    lifeRule (some LIVE_CELL) (.num s) j = (DEAD_CELL, none) := by
  have e1 : ¬(s < 2) := by omega
  simp [lifeRule, JsNum.ltInt, JsNum.gtInt, e1, h]

theorem lifeRule_fst (t : Option Int) (n : JsNum) (j : Nat) :
    (lifeRule t n j).1 = DEAD_CELL ∨ (lifeRule t n j).1 = LIVE_CELL := by
  unfold lifeRule
  split_ifs <;> simp

theorem lifeRule_snd_shape (t : Option Int) (n : JsNum) (j : Nat) :
    (lifeRule t n j).2 = none ∨ (lifeRule t n j).2 = some j := by
  unfold lifeRule
  split_ifs <;> simp

theorem Grid.cellStep_eq (g : Grid) (i j : Nat) (n : JsNum)
    (hn : g.calcLivingNeighbors i j = some n) :
    g.cellStep i j = some (lifeRule (g.getCell i j) n j) := by
  unfold Grid.cellStep
  rw [hn]
  rfl

theorem Grid.cellStep_shape (g : Grid) (i j : Nat) (p : Int × Option Nat)
    (hp : g.cellStep i j = some p) :
    (p.1 = DEAD_CELL ∨ p.1 = LIVE_CELL) ∧ (p.2 = none ∨ p.2 = some j) := by
  unfold Grid.cellStep at hp
  cases hn : g.calcLivingNeighbors i j with
  | none => rw [hn] at hp; simp at hp
  | some n =>
    rw [hn] at hp
    simp only [Option.map_some', Option.some.injEq] at hp
    rw [← hp]
    exact ⟨lifeRule_fst _ _ _, lifeRule_snd_shape _ _ _⟩

/-! ### Characterization of a successful update pass -/

theorem Grid.update_of_steps (g : Grid) (f : Nat → Nat → Int)
    (hstep : ∀ i j, i < g.height → j < g.width →
      ∃ p, g.cellStep i j = some p ∧ p.1 = f i j)
    (hnext : g.next.elems.length = g.width * g.height) :
    ∃ g', g.update = some g' ∧
      g'.width = g.width ∧ g'.height = g.height ∧ g'.cell_types = g.cell_types ∧
      g'.cells.elems = rowMajor g.width g.height f ∧
      g'.cells.props = g.next.props ∧
      g'.next = g.cells := by
  have hrows : ∃ rows,
      (List.range g.height).mapM
        (fun i => (List.range g.width).mapM (fun j => g.cellStep i j)) = some rows ∧
      rows.map (fun r => r.map Prod.fst) =
        (List.range g.height).map (fun i => (List.range g.width).map (f i)) := by
    apply mapM_some_of
    intro i hi
    have hi' : i < g.height := List.mem_range.mp hi
    obtain ⟨r, hr, hmap⟩ := mapM_some_of (fun j => g.cellStep i j) Prod.fst (f i)
      (List.range g.width)
      (fun j hj => hstep i j hi' (List.mem_range.mp hj))
    exact ⟨r, hr, hmap⟩
  obtain ⟨rows, hrows, hmap⟩ := hrows
  have hvs : (rows.map (fun r => r.map Prod.fst)).flatten = rowMajor g.width g.height f := by
    rw [hmap]
    rfl
  have hvslen : ((rows.map (fun r => r.map Prod.fst)).flatten).length =
      g.next.elems.length := by
    rw [hvs, rowMajor_length, hnext, Nat.mul_comm]
  obtain ⟨hfull, hprops⟩ :=
    JsArray.writeFrom_full ((rows.map (fun r => r.map Prod.fst)).flatten) g.next
      hvslen.symm
  refine ⟨{ g with
      cells := g.next.writeFrom 0 ((rows.map (fun r => r.map Prod.fst)).flatten)
      next := g.cells
      newborns := rows.map (fun r => r.filterMap Prod.snd) },
    ?_, rfl, rfl, rfl, hfull.trans hvs, hprops, rfl⟩
  unfold Grid.update
  rw [hrows]

theorem flatten_rows_length {β : Type} (rows : List (List β)) (w : Nat)
    (hall : ∀ r ∈ rows, r.length = w) : rows.flatten.length = rows.length * w := by
  induction rows with
  | nil => simp
  | cons r t ih =>
    rw [List.flatten_cons, List.length_append, hall r (List.mem_cons_self r t),
      ih (fun x hx => hall x (List.mem_cons_of_mem r hx))]
    simp [Nat.succ_mul]
    omega

theorem Grid.rows_lengths (g : Grid) (rows : List (List (Int × Option Nat)))
    (hrows : (List.range g.height).mapM
      (fun i => (List.range g.width).mapM (fun j => g.cellStep i j)) = some rows) :
    rows.length = g.height ∧ ∀ r ∈ rows, r.length = g.width := by
  constructor
  · rw [mapM_some_len _ _ _ hrows, List.length_range]
  · intro r hr
    obtain ⟨i, _, hri⟩ := mapM_some_mem _ _ _ hrows r hr
    rw [mapM_some_len _ _ _ hri, List.length_range]

theorem Grid.update_vs_length (g : Grid) (rows : List (List (Int × Option Nat)))
    (hrows : (List.range g.height).mapM
      (fun i => (List.range g.width).mapM (fun j => g.cellStep i j)) = some rows) :
    ((rows.map (fun r => r.map Prod.fst)).flatten).length = g.height * g.width := by
  obtain ⟨hlen, hall⟩ := g.rows_lengths rows hrows
  rw [flatten_rows_length (rows.map (fun r => r.map Prod.fst)) g.width ?_]
  · rw [List.length_map, hlen]
  · intro r hr
    obtain ⟨r0, hr0, hmap⟩ := List.mem_map.mp hr
    rw [← hmap, List.length_map]
    exact hall r0 hr0

/-- C10: after every successful `update` on a grid of height h, the newborn
report has exactly h row entries (rows without births are empty lists), and
within each row entry the recorded column indices are strictly increasing
and below the width (they are pushed by the inner loop in increasing column
order). -/
theorem c10_newborn_report_shape (g g' : Grid) (h : g.update = some g') :
    g'.newborns.length = g.height ∧
    ∀ row ∈ g'.newborns, List.Pairwise (· < ·) row ∧ ∀ c ∈ row, c < g.width := by
  unfold Grid.update at h
  cases hrows : (List.range g.height).mapM
      (fun i => (List.range g.width).mapM (fun j => g.cellStep i j)) with
  | none => rw [hrows] at h; exact absurd h (by simp)
  | some rows =>
    rw [hrows] at h
    have hg : g' = { g with
        cells := g.next.writeFrom 0 ((rows.map (fun r => r.map Prod.fst)).flatten)
        next := g.cells
        newborns := rows.map (fun r => r.filterMap Prod.snd) } :=
      (Option.some.inj h).symm
    subst hg
    constructor
    · show (rows.map (fun r => r.filterMap Prod.snd)).length = g.height
      rw [List.length_map, mapM_some_len _ _ _ hrows, List.length_range]
    · intro row hrow
      obtain ⟨r, hr, hfr⟩ := List.mem_map.mp hrow
      obtain ⟨i, _, hri⟩ := mapM_some_mem _ _ _ hrows r hr
      have hsub : (r.filterMap Prod.snd).Sublist (List.range g.width) :=
        filterMap_snd_sublist _ (List.range g.width) r hri
          (fun j p hp => (g.cellStep_shape i j p hp).2)
      rw [← hfr]
      exact ⟨List.Pairwise.sublist hsub (List.pairwise_lt_range _),
        fun c hc => List.mem_range.mp (hsub.subset hc)⟩

/-- Witness for C10: the 2×2 grid updates successfully and the instantiated
conclusion holds for its concrete newborn report. -/
theorem c10_witness :
    (Grid.init 2 2).update =
      some ⟨2, 2, ⟨[0, 0, 0, 0], []⟩, ⟨[0, 0, 0, 0], []⟩, [[], []], [0, 1, 2, 3]⟩ ∧
    ((⟨2, 2, ⟨[0, 0, 0, 0], []⟩, ⟨[0, 0, 0, 0], []⟩, [[], []],
        [0, 1, 2, 3]⟩ : Grid).newborns.length = (Grid.init 2 2).height ∧
      ∀ row ∈ (⟨2, 2, ⟨[0, 0, 0, 0], []⟩, ⟨[0, 0, 0, 0], []⟩, [[], []],
        [0, 1, 2, 3]⟩ : Grid).newborns,
        List.Pairwise (· < ·) row ∧ ∀ c ∈ row, c < (Grid.init 2 2).width) :=
  ⟨by decide, c10_newborn_report_shape (Grid.init 2 2) _ (by decide)⟩

/-- C9: every entry of both buffers is DEAD or LIVE after construction; the
property is preserved by any `setCell` whose argument is DEAD or LIVE, and
by any successful `update`. -/
theorem c9_buffers_binary :
    (∀ w h : Nat, (Grid.init w h).buffersBinary) ∧
    (∀ (g : Grid) (r c v : Int), g.buffersBinary →
      (v = DEAD_CELL ∨ v = LIVE_CELL) → (g.setCell r c v).buffersBinary) ∧
    (∀ (g g' : Grid), g.buffersBinary → g.update = some g' → g'.buffersBinary) := by
  have hrm : ∀ (w h : Nat) (x : Int), x ∈ rowMajor w h (fun _ _ => DEAD_CELL) →
      x = DEAD_CELL ∨ x = LIVE_CELL := by
    intro w h x hx
    unfold rowMajor at hx
    obtain ⟨l, hl, hxl⟩ := List.mem_flatten.mp hx
    obtain ⟨i, _, hli⟩ := List.mem_map.mp hl
    rw [← hli] at hxl
    obtain ⟨j, _, hxj⟩ := List.mem_map.mp hxl
    exact Or.inl hxj.symm
  refine ⟨?_, ?_, ?_⟩
  · intro w h
    exact ⟨fun x hx => hrm w h x hx, fun x hx => hrm w h x hx⟩
  · intro g r c v hg hv
    unfold Grid.setCell
    split
    · refine ⟨?_, hg.2⟩
      intro x hx
      show x = DEAD_CELL ∨ x = LIVE_CELL
      unfold JsArray.write at hx
      split at hx
      · rcases List.mem_or_eq_of_mem_set hx with h1 | h1
        · exact hg.1 x h1
        · exact h1 ▸ hv
      · exact hg.1 x hx
    · exact hg
  · intro g g' hg hu
    unfold Grid.update at hu
    cases hrows : (List.range g.height).mapM
        (fun i => (List.range g.width).mapM (fun j => g.cellStep i j)) with
    | none => rw [hrows] at hu; exact absurd hu (by simp)
    | some rows =>
      rw [hrows] at hu
      have hgeq : g' = { g with
          cells := g.next.writeFrom 0 ((rows.map (fun r => r.map Prod.fst)).flatten)
          next := g.cells
          newborns := rows.map (fun r => r.filterMap Prod.snd) } :=
        (Option.some.inj hu).symm
      subst hgeq
      refine ⟨?_, hg.1⟩
      apply JsArray.writeFrom_mem _ g.next 0 hg.2
      intro v hv
      obtain ⟨l, hl, hvl⟩ := List.mem_flatten.mp hv
      obtain ⟨r0, hr0, hlr⟩ := List.mem_map.mp hl
      rw [← hlr] at hvl
      obtain ⟨p, hp, hvp⟩ := List.mem_map.mp hvl
      obtain ⟨i, _, hri⟩ := mapM_some_mem _ _ _ hrows r0 hr0
      obtain ⟨j, _, hpj⟩ := mapM_some_mem _ _ _ hri p hp
      rw [← hvp]
      exact (g.cellStep_shape i j p hpj).1

/-- Witness for C9: all three conjuncts applied at concrete inputs. -/
theorem c9_witness :
    (Grid.init 2 2).buffersBinary ∧
    ((Grid.init 2 2).setCell 0 1 LIVE_CELL).buffersBinary ∧
    (⟨2, 2, ⟨[0, 0, 0, 0], []⟩, ⟨[0, 0, 0, 0], []⟩, [[], []],
      [0, 1, 2, 3]⟩ : Grid).buffersBinary :=
  ⟨c9_buffers_binary.1 2 2,
   c9_buffers_binary.2.1 (Grid.init 2 2) 0 1 LIVE_CELL (c9_buffers_binary.1 2 2)
     (Or.inr rfl),
   c9_buffers_binary.2.2 (Grid.init 2 2) _ (c9_buffers_binary.1 2 2) (by decide)⟩

/-- C5: `update` is a pure function of the current buffer: two grids with the
same dimensions, the same current buffer and the same classification cache
(the cache is computed from the dimensions at construction), with arbitrary
scratch buffers of the proper length, produce the same resulting cell
contents and the same newborn report. -/
theorem c5_update_pure_function_of_current (g₁ g₂ r₁ r₂ : Grid)
    (hW : g₁.width = g₂.width) (hH : g₁.height = g₂.height)
    (hC : g₁.cells = g₂.cells) (hT : g₁.cell_types = g₂.cell_types)
    (hn₁ : g₁.next.elems.length = g₁.width * g₁.height)
    (hn₂ : g₂.next.elems.length = g₂.width * g₂.height)
    (h₁ : g₁.update = some r₁) (h₂ : g₂.update = some r₂) :
    r₁.cells.elems = r₂.cells.elems ∧ r₁.newborns = r₂.newborns := by
  have hstep : ∀ i j : Nat, g₁.cellStep i j = g₂.cellStep i j := by
    intro i j
    simp only [Grid.cellStep, Grid.calcLivingNeighbors, Grid.determineCellType,
      Grid.calcLoop, Grid.getCell, Grid.isValidCell, Grid.numCells, listReadInt,
      hW, hH, hC, hT]
  have hfun : (fun i => (List.range g₁.width).mapM (fun j => g₁.cellStep i j)) =
      (fun i => (List.range g₂.width).mapM (fun j => g₂.cellStep i j)) := by
    funext i
    rw [hW]
    simp only [hstep]
  unfold Grid.update at h₁ h₂
  rw [hH, hfun] at h₁
  cases hrows : (List.range g₂.height).mapM
      (fun i => (List.range g₂.width).mapM (fun j => g₂.cellStep i j)) with
  | none => rw [hrows] at h₂; exact absurd h₂ (by simp)
  | some rows =>
    rw [hrows] at h₁ h₂
    have e₁ := (Option.some.inj h₁).symm
    have e₂ := (Option.some.inj h₂).symm
    subst e₁
    subst e₂
    have hvlen : ((rows.map (fun r => r.map Prod.fst)).flatten).length =
        g₂.height * g₂.width := by
      apply Grid.update_vs_length g₂ rows
      exact hrows
    constructor
    · show (g₁.next.writeFrom 0 _).elems = (g₂.next.writeFrom 0 _).elems
      rw [(JsArray.writeFrom_full _ g₁.next (by rw [hvlen, hn₁, hW, hH]; exact Nat.mul_comm _ _)).1,
          (JsArray.writeFrom_full _ g₂.next (by rw [hvlen, hn₂]; exact Nat.mul_comm _ _)).1]
    · rfl

/-- Witness for C5: two concrete 2×2 grids with the same current buffer and
different scratch buffers update to the same cell contents and report. -/
theorem c5_witness :
    (Grid.init 2 2).update =
      some ⟨2, 2, ⟨[0, 0, 0, 0], []⟩, ⟨[0, 0, 0, 0], []⟩, [[], []], [0, 1, 2, 3]⟩ ∧
    ({ Grid.init 2 2 with next := ⟨[1, 0, 1, 1], []⟩ } : Grid).update =
      some ⟨2, 2, ⟨[0, 0, 0, 0], []⟩, ⟨[0, 0, 0, 0], []⟩, [[], []], [0, 1, 2, 3]⟩ ∧
    ((⟨2, 2, ⟨[0, 0, 0, 0], []⟩, ⟨[0, 0, 0, 0], []⟩, [[], []],
        [0, 1, 2, 3]⟩ : Grid).cells.elems =
      (⟨2, 2, ⟨[0, 0, 0, 0], []⟩, ⟨[0, 0, 0, 0], []⟩, [[], []],
        [0, 1, 2, 3]⟩ : Grid).cells.elems ∧
      (⟨2, 2, ⟨[0, 0, 0, 0], []⟩, ⟨[0, 0, 0, 0], []⟩, [[], []],
        [0, 1, 2, 3]⟩ : Grid).newborns =
      (⟨2, 2, ⟨[0, 0, 0, 0], []⟩, ⟨[0, 0, 0, 0], []⟩, [[], []],
        [0, 1, 2, 3]⟩ : Grid).newborns) :=
  ⟨by decide, by decide,
   c5_update_pure_function_of_current (Grid.init 2 2)
     { Grid.init 2 2 with next := ⟨[1, 0, 1, 1], []⟩ } _ _
     rfl rfl rfl rfl (by decide) (by decide) (by decide) (by decide)⟩

/-! ### Value-table lemmas for the blinker configurations -/

theorem bH_zero {r c : Nat}
    (h : ¬((r = 2 ∧ c = 1) ∨ (r = 2 ∧ c = 2) ∨ (r = 2 ∧ c = 3))) : bH r c = 0 := by
  unfold bH
  rw [if_neg h]
  rfl

theorem bV_zero {r c : Nat}
    (h : ¬((r = 1 ∧ c = 2) ∨ (r = 2 ∧ c = 2) ∨ (r = 3 ∧ c = 2))) : bV r c = 0 := by
  unfold bV
  rw [if_neg h]
  rfl

theorem bH_binary (r c : Nat) : bH r c = 0 ∨ bH r c = 1 := by
  unfold bH
  by_cases h : (r = 2 ∧ c = 1) ∨ (r = 2 ∧ c = 2) ∨ (r = 2 ∧ c = 3)
  · rw [if_pos h]; exact Or.inr rfl
  · rw [if_neg h]; exact Or.inl rfl

/-! ### Explicit expansions of the neighbor-summing loop, one per cell type -/

theorem calcLoop_TR (g : Grid) (row col : Int) :
    g.calcLoop ⟨3, [-1, 0, -1, 1, 0, 1]⟩ row col =
      (((JsNum.num 0).addVal
          (g.cells.read ((row + 0) * (g.width : Int) + (col + -1)))).addVal
          (g.cells.read ((row + 1) * (g.width : Int) + (col + -1)))).addVal
          (g.cells.read ((row + 1) * (g.width : Int) + (col + 0))) := rfl

theorem calcLoop_BL (g : Grid) (row col : Int) :
    g.calcLoop ⟨3, [1, 0, 1, -1, 0, -1]⟩ row col =
      (((JsNum.num 0).addVal
          (g.cells.read ((row + 0) * (g.width : Int) + (col + 1)))).addVal
          (g.cells.read ((row + -1) * (g.width : Int) + (col + 1)))).addVal
          (g.cells.read ((row + -1) * (g.width : Int) + (col + 0))) := rfl

theorem calcLoop_BR (g : Grid) (row col : Int) :
    g.calcLoop ⟨3, [-1, 0, -1, -1, 0, -1]⟩ row col =
      (((JsNum.num 0).addVal
          (g.cells.read ((row + 0) * (g.width : Int) + (col + -1)))).addVal
          (g.cells.read ((row + -1) * (g.width : Int) + (col + -1)))).addVal
          (g.cells.read ((row + -1) * (g.width : Int) + (col + 0))) := rfl

theorem calcLoop_TOP (g : Grid) (row col : Int) :
    g.calcLoop ⟨5, [-1, 0, -1, 1, 0, 1, 1, 1, 1, 0]⟩ row col =
      (((((JsNum.num 0).addVal
          (g.cells.read ((row + 0) * (g.width : Int) + (col + -1)))).addVal
          (g.cells.read ((row + 1) * (g.width : Int) + (col + -1)))).addVal
          (g.cells.read ((row + 1) * (g.width : Int) + (col + 0)))).addVal
          (g.cells.read ((row + 1) * (g.width : Int) + (col + 1)))).addVal
          (g.cells.read ((row + 0) * (g.width : Int) + (col + 1))) := rfl

theorem calcLoop_BOTTOM (g : Grid) (row col : Int) :
    g.calcLoop ⟨5, [-1, 0, -1, -1, 0, -1, 1, -1, 1, 0]⟩ row col =
      (((((JsNum.num 0).addVal
          (g.cells.read ((row + 0) * (g.width : Int) + (col + -1)))).addVal
          (g.cells.read ((row + -1) * (g.width : Int) + (col + -1)))).addVal
          (g.cells.read ((row + -1) * (g.width : Int) + (col + 0)))).addVal
          (g.cells.read ((row + -1) * (g.width : Int) + (col + 1)))).addVal
          (g.cells.read ((row + 0) * (g.width : Int) + (col + 1))) := rfl

theorem calcLoop_LEFT (g : Grid) (row col : Int) :
    g.calcLoop ⟨5, [0, -1, 1, -1, 1, 0, 1, 1, 0, 1]⟩ row col =
      (((((JsNum.num 0).addVal
          (g.cells.read ((row + -1) * (g.width : Int) + (col + 0)))).addVal
          (g.cells.read ((row + -1) * (g.width : Int) + (col + 1)))).addVal
          (g.cells.read ((row + 0) * (g.width : Int) + (col + 1)))).addVal
          (g.cells.read ((row + 1) * (g.width : Int) + (col + 1)))).addVal
          (g.cells.read ((row + 1) * (g.width : Int) + (col + 0))) := rfl

theorem calcLoop_RIGHT (g : Grid) (row col : Int) :
    g.calcLoop ⟨5, [0, -1, -1, -1, -1, 0, -1, 1, 0, 1]⟩ row col =
      (((((JsNum.num 0).addVal
          (g.cells.read ((row + -1) * (g.width : Int) + (col + 0)))).addVal
          (g.cells.read ((row + -1) * (g.width : Int) + (col + -1)))).addVal
          (g.cells.read ((row + 0) * (g.width : Int) + (col + -1)))).addVal
          (g.cells.read ((row + 1) * (g.width : Int) + (col + -1)))).addVal
          (g.cells.read ((row + 1) * (g.width : Int) + (col + 0))) := rfl

theorem calcLoop_CENTER (g : Grid) (row col : Int) :
    g.calcLoop ⟨8, [-1, -1, -1, 0, -1, 1, 0, 1, 1, 1, 1, 0, 1, -1, 0, -1]⟩ row col =
      ((((((((JsNum.num 0).addVal
          (g.cells.read ((row + -1) * (g.width : Int) + (col + -1)))).addVal
          (g.cells.read ((row + 0) * (g.width : Int) + (col + -1)))).addVal
          (g.cells.read ((row + 1) * (g.width : Int) + (col + -1)))).addVal
          (g.cells.read ((row + 1) * (g.width : Int) + (col + 0)))).addVal
          (g.cells.read ((row + 1) * (g.width : Int) + (col + 1)))).addVal
          (g.cells.read ((row + 0) * (g.width : Int) + (col + 1)))).addVal
          (g.cells.read ((row + -1) * (g.width : Int) + (col + 1)))).addVal
          (g.cells.read ((row + -1) * (g.width : Int) + (col + 0))) := rfl

theorem calcLoop_TL (g : Grid) (row col : Int) :
    g.calcLoop ⟨3, [1, 0, 1, 1, 0, 1]⟩ row col =
      (((JsNum.num 0).addVal
          (g.cells.read ((row + 0) * (g.width : Int) + (col + 1)))).addVal
          (g.cells.read ((row + 1) * (g.width : Int) + (col + 1)))).addVal
          (g.cells.read ((row + 1) * (g.width : Int) + (col + 0))) := rfl

theorem Grid.calcLN_eq (g : Grid) (row col : Int) (ct : Nat) (entry : CellType)
    (hdct : g.determineCellType row col = some ct)
    (hcl : cellLookup[ct]? = some entry) :
    g.calcLivingNeighbors row col = some (g.calcLoop entry row col) := by
  unfold Grid.calcLivingNeighbors
  simp only [hdct, hcl]

/-! ### Classification of the cells in each border region -/

theorem ct_TL (w h i j : Nat) (hi : i = 0) (hj : j = 0) :
    getCellTypeFun w h i j = TOP_LEFT := by
  unfold getCellTypeFun
  rw [if_pos (by omega)]

theorem ct_TR (w h i j : Nat) (hi : i = 0) (hj1 : 1 ≤ j) (hj : j + 1 = w) :
    getCellTypeFun w h i j = TOP_RIGHT := by
  unfold getCellTypeFun
  rw [if_neg (by omega)]
  rw [if_pos (by omega)]

theorem ct_TOPe (w h i j : Nat) (hi : i = 0) (hj1 : 1 ≤ j) (hj2 : j + 2 ≤ w) :
    getCellTypeFun w h i j = TOP := by
  unfold getCellTypeFun
  iterate 4 rw [if_neg (by omega)]
  rw [if_pos (by omega)]

theorem ct_BL (w h i j : Nat) (hi1 : 1 ≤ i) (hi : i + 1 = h) (hj : j = 0) :
    getCellTypeFun w h i j = BOTTOM_LEFT := by
  unfold getCellTypeFun
  iterate 2 rw [if_neg (by omega)]
  rw [if_pos (by omega)]

theorem ct_BR (w h i j : Nat) (hi1 : 1 ≤ i) (hi : i + 1 = h) (hj : j = i) :
    getCellTypeFun w h i j = BOTTOM_RIGHT := by
  unfold getCellTypeFun
  iterate 3 rw [if_neg (by omega)]
  rw [if_pos (by omega)]

theorem ct_LEFTe (w h i j : Nat) (hi1 : 1 ≤ i) (hi2 : i + 2 ≤ h) (hj : j = 0) :
    getCellTypeFun w h i j = LEFT := by
  unfold getCellTypeFun
  iterate 5 rw [if_neg (by omega)]
  rw [if_pos (by omega)]

theorem ct_bottom_row (w h i j : Nat) (hi1 : 1 ≤ i) (hi : i + 1 = h)
    (hj1 : 1 ≤ j) (hne : j ≠ i) :
    getCellTypeFun w h i j = RIGHT := by
  unfold getCellTypeFun
  iterate 6 rw [if_neg (by omega)]
  rw [if_pos (by omega)]

theorem ct_right_col (w h i j : Nat) (hi1 : 1 ≤ i) (hi2 : i + 2 ≤ h)
    (hj1 : 1 ≤ j) (hj : j + 1 = w) :
    getCellTypeFun w h i j = BOTTOM := by
  unfold getCellTypeFun
  iterate 7 rw [if_neg (by omega)]
  rw [if_pos (by omega)]

theorem ct_CENTERe (w h i j : Nat) (hi1 : 1 ≤ i) (hi2 : i + 2 ≤ h)
    (hj1 : 1 ≤ j) (hj2 : j + 2 ≤ w) :
    getCellTypeFun w h i j = CENTER := by
  unfold getCellTypeFun
  iterate 8 rw [if_neg (by omega)]

/-! ### The neighbor count of each border region, over an arbitrary value table -/

theorem count_TL (g : Grid) (w h : Nat) (V : Nat → Nat → Int)
    (hgw : g.width = w) (hct : g.cell_types = mkCellTypes w h)
    (hel : g.cells.elems = rowMajor w h V) (hh : 2 ≤ h) (hw : 2 ≤ w) :
    g.calcLivingNeighbors ((0 : Nat) : Int) ((0 : Nat) : Int) =
      some (.num (0 + V 0 1 + V 1 1 + V 1 0)) := by
  rw [Grid.calcLN_eq g _ _ TOP_LEFT ⟨3, [1, 0, 1, 1, 0, 1]⟩
    (by rw [Grid.dct g w h hgw hct 0 0 (by omega) (by omega),
      ct_TL w h 0 0 rfl rfl]) rfl]
  rw [calcLoop_TL, hgw]
  rw [Grid.read_at g w h V hel 0 1 (by omega) (by omega) (by push_cast; ring)]
  rw [Grid.read_at g w h V hel 1 1 (by omega) (by omega) (by push_cast; ring)]
  rw [Grid.read_at g w h V hel 1 0 (by omega) (by omega) (by push_cast; ring)]
  rfl

theorem count_TR (g : Grid) (w h : Nat) (V : Nat → Nat → Int)
    (hgw : g.width = w) (hct : g.cell_types = mkCellTypes w h)
    (hel : g.cells.elems = rowMajor w h V) (b : Nat) (hwb : w = b + 2) (hh : 2 ≤ h) :
    g.calcLivingNeighbors ((0 : Nat) : Int) ((b + 1 : Nat) : Int) =
      some (.num (0 + V 0 b + V 1 b + V 1 (b + 1))) := by
  subst hwb
  rw [Grid.calcLN_eq g _ _ TOP_RIGHT ⟨3, [-1, 0, -1, 1, 0, 1]⟩
    (by rw [Grid.dct g (b + 2) h hgw hct 0 (b + 1) (by omega) (by omega),
      ct_TR (b + 2) h 0 (b + 1) rfl (by omega) (by omega)]) rfl]
  rw [calcLoop_TR, hgw]
  rw [Grid.read_at g (b + 2) h V hel 0 b (by omega) (by omega) (by push_cast; ring)]
  rw [Grid.read_at g (b + 2) h V hel 1 b (by omega) (by omega) (by push_cast; ring)]
  rw [Grid.read_at g (b + 2) h V hel 1 (b + 1) (by omega) (by omega) (by push_cast; ring)]
  rfl

theorem count_BL (g : Grid) (w h : Nat) (V : Nat → Nat → Int)
    (hgw : g.width = w) (hct : g.cell_types = mkCellTypes w h)
    (hel : g.cells.elems = rowMajor w h V) (a : Nat) (hha : h = a + 2) (hw : 2 ≤ w) :
    g.calcLivingNeighbors ((a + 1 : Nat) : Int) ((0 : Nat) : Int) =
      some (.num (0 + V (a + 1) 1 + V a 1 + V a 0)) := by
  subst hha
  rw [Grid.calcLN_eq g _ _ BOTTOM_LEFT ⟨3, [1, 0, 1, -1, 0, -1]⟩
    (by rw [Grid.dct g w (a + 2) hgw hct (a + 1) 0 (by omega) (by omega),
      ct_BL w (a + 2) (a + 1) 0 (by omega) (by omega) rfl]) rfl]
  rw [calcLoop_BL, hgw]
  rw [Grid.read_at g w (a + 2) V hel (a + 1) 1 (by omega) (by omega) (by push_cast; ring)]
  rw [Grid.read_at g w (a + 2) V hel a 1 (by omega) (by omega) (by push_cast; ring)]
  rw [Grid.read_at g w (a + 2) V hel a 0 (by omega) (by omega) (by push_cast; ring)]
  rfl

theorem count_BR (g : Grid) (w h : Nat) (V : Nat → Nat → Int)
    (hgw : g.width = w) (hct : g.cell_types = mkCellTypes w h)
    (hel : g.cells.elems = rowMajor w h V) (a : Nat) (hha : h = a + 2)
    (hw : a + 2 ≤ w) :
    g.calcLivingNeighbors ((a + 1 : Nat) : Int) ((a + 1 : Nat) : Int) =
      some (.num (0 + V (a + 1) a + V a a + V a (a + 1))) := by
  subst hha
  rw [Grid.calcLN_eq g _ _ BOTTOM_RIGHT ⟨3, [-1, 0, -1, -1, 0, -1]⟩
    (by rw [Grid.dct g w (a + 2) hgw hct (a + 1) (a + 1) (by omega) (by omega),
      ct_BR w (a + 2) (a + 1) (a + 1) (by omega) (by omega) rfl]) rfl]
  rw [calcLoop_BR, hgw]
  rw [Grid.read_at g w (a + 2) V hel (a + 1) a (by omega) (by omega) (by push_cast; ring)]
  rw [Grid.read_at g w (a + 2) V hel a a (by omega) (by omega) (by push_cast; ring)]
  rw [Grid.read_at g w (a + 2) V hel a (a + 1) (by omega) (by omega) (by push_cast; ring)]
  rfl

theorem count_TOP (g : Grid) (w h : Nat) (V : Nat → Nat → Int)
    (hgw : g.width = w) (hct : g.cell_types = mkCellTypes w h)
    (hel : g.cells.elems = rowMajor w h V) (b : Nat) (hh : 2 ≤ h) (hb : b + 3 ≤ w) :
    g.calcLivingNeighbors ((0 : Nat) : Int) ((b + 1 : Nat) : Int) =
      some (.num (0 + V 0 b + V 1 b + V 1 (b + 1) + V 1 (b + 2) + V 0 (b + 2))) := by
  rw [Grid.calcLN_eq g _ _ TOP ⟨5, [-1, 0, -1, 1, 0, 1, 1, 1, 1, 0]⟩
    (by rw [Grid.dct g w h hgw hct 0 (b + 1) (by omega) (by omega),
      ct_TOPe w h 0 (b + 1) rfl (by omega) (by omega)]) rfl]
  rw [calcLoop_TOP, hgw]
  rw [Grid.read_at g w h V hel 0 b (by omega) (by omega) (by push_cast; ring)]
  rw [Grid.read_at g w h V hel 1 b (by omega) (by omega) (by push_cast; ring)]
  rw [Grid.read_at g w h V hel 1 (b + 1) (by omega) (by omega) (by push_cast; ring)]
  rw [Grid.read_at g w h V hel 1 (b + 2) (by omega) (by omega) (by push_cast; ring)]
  rw [Grid.read_at g w h V hel 0 (b + 2) (by omega) (by omega) (by push_cast; ring)]
  rfl

theorem count_LEFT (g : Grid) (w h : Nat) (V : Nat → Nat → Int)
    (hgw : g.width = w) (hct : g.cell_types = mkCellTypes w h)
    (hel : g.cells.elems = rowMajor w h V) (a : Nat) (ha : a + 3 ≤ h) (hw : 2 ≤ w) :
    g.calcLivingNeighbors ((a + 1 : Nat) : Int) ((0 : Nat) : Int) =
      some (.num (0 + V a 0 + V a 1 + V (a + 1) 1 + V (a + 2) 1 + V (a + 2) 0)) := by
  rw [Grid.calcLN_eq g _ _ LEFT ⟨5, [0, -1, 1, -1, 1, 0, 1, 1, 0, 1]⟩
    (by rw [Grid.dct g w h hgw hct (a + 1) 0 (by omega) (by omega),
      ct_LEFTe w h (a + 1) 0 (by omega) (by omega) rfl]) rfl]
  rw [calcLoop_LEFT, hgw]
  rw [Grid.read_at g w h V hel a 0 (by omega) (by omega) (by push_cast; ring)]
  rw [Grid.read_at g w h V hel a 1 (by omega) (by omega) (by push_cast; ring)]
  rw [Grid.read_at g w h V hel (a + 1) 1 (by omega) (by omega) (by push_cast; ring)]
  rw [Grid.read_at g w h V hel (a + 2) 1 (by omega) (by omega) (by push_cast; ring)]
  rw [Grid.read_at g w h V hel (a + 2) 0 (by omega) (by omega) (by push_cast; ring)]
  rfl

theorem count_right_col (g : Grid) (w h : Nat) (V : Nat → Nat → Int)
    (hgw : g.width = w) (hct : g.cell_types = mkCellTypes w h)
    (hel : g.cells.elems = rowMajor w h V) (a b : Nat) (hwb : w = b + 2)
    (ha : a + 3 ≤ h) :
    g.calcLivingNeighbors ((a + 1 : Nat) : Int) ((b + 1 : Nat) : Int) =
      some (.num (0 + V (a + 1) b + V a b + V a (b + 1) + V (a + 1) 0 + V (a + 2) 0)) := by
  subst hwb
  rw [Grid.calcLN_eq g _ _ BOTTOM ⟨5, [-1, 0, -1, -1, 0, -1, 1, -1, 1, 0]⟩
    (by rw [Grid.dct g (b + 2) h hgw hct (a + 1) (b + 1) (by omega) (by omega),
      ct_right_col (b + 2) h (a + 1) (b + 1) (by omega) (by omega) (by omega) (by omega)]) rfl]
  rw [calcLoop_BOTTOM, hgw]
  rw [Grid.read_at g (b + 2) h V hel (a + 1) b (by omega) (by omega) (by push_cast; ring)]
  rw [Grid.read_at g (b + 2) h V hel a b (by omega) (by omega) (by push_cast; ring)]
  rw [Grid.read_at g (b + 2) h V hel a (b + 1) (by omega) (by omega) (by push_cast; ring)]
  rw [Grid.read_at g (b + 2) h V hel (a + 1) 0 (by omega) (by omega) (by push_cast; ring)]
  rw [Grid.read_at g (b + 2) h V hel (a + 2) 0 (by omega) (by omega) (by push_cast; ring)]
  rfl

theorem count_bottom_row (g : Grid) (w h : Nat) (V : Nat → Nat → Int)
    (hgw : g.width = w) (hct : g.cell_types = mkCellTypes w h)
    (hel : g.cells.elems = rowMajor w h V)
    (hprops : ∀ p ∈ g.cells.props, p.1 < 0)
    (a c : Nat) (hha : h = a + 2) (hc : c + 2 ≤ w) (hne : c + 1 ≠ a + 1) :
    g.calcLivingNeighbors ((a + 1 : Nat) : Int) ((c + 1 : Nat) : Int) =
      some JsNum.nan := by
  subst hha
  have hlen : g.cells.elems.length = (a + 2) * w := by
    rw [hel, rowMajor_length]
  rw [Grid.calcLN_eq g _ _ RIGHT ⟨5, [0, -1, -1, -1, -1, 0, -1, 1, 0, 1]⟩
    (by rw [Grid.dct g w (a + 2) hgw hct (a + 1) (c + 1) (by omega) (by omega),
      ct_bottom_row w (a + 2) (a + 1) (c + 1) (by omega) (by omega) (by omega) hne]) rfl]
  rw [calcLoop_RIGHT, hgw]
  rw [Grid.read_at g w (a + 2) V hel a (c + 1) (by omega) (by omega) (by push_cast; ring)]
  rw [Grid.read_at g w (a + 2) V hel a c (by omega) (by omega) (by push_cast; ring)]
  rw [Grid.read_at g w (a + 2) V hel (a + 1) c (by omega) (by omega) (by push_cast; ring)]
  rw [Grid.read_oob_at g w (a + 2) hlen hprops ((a + 2) * w + c)
    (Nat.le_add_right _ _) (by push_cast; ring)]
  rw [JsNum.addVal_none, JsNum.addVal_nan]

theorem count_CENTER (g : Grid) (w h : Nat) (V : Nat → Nat → Int)
    (hgw : g.width = w) (hct : g.cell_types = mkCellTypes w h)
    (hel : g.cells.elems = rowMajor w h V) (a b : Nat)
    (ha : a + 3 ≤ h) (hb : b + 3 ≤ w) :
    g.calcLivingNeighbors ((a + 1 : Nat) : Int) ((b + 1 : Nat) : Int) =
      some (.num (0 + V a b + V (a + 1) b + V (a + 2) b + V (a + 2) (b + 1) +
        V (a + 2) (b + 2) + V (a + 1) (b + 2) + V a (b + 2) + V a (b + 1))) := by
  rw [Grid.calcLN_eq g _ _ CENTER ⟨8, [-1, -1, -1, 0, -1, 1, 0, 1, 1, 1, 1, 0, 1, -1, 0, -1]⟩
    (by rw [Grid.dct g w h hgw hct (a + 1) (b + 1) (by omega) (by omega),
      ct_CENTERe w h (a + 1) (b + 1) (by omega) (by omega) (by omega) (by omega)]) rfl]
  rw [calcLoop_CENTER, hgw]
  rw [Grid.read_at g w h V hel a b (by omega) (by omega) (by push_cast; ring)]
  rw [Grid.read_at g w h V hel (a + 1) b (by omega) (by omega) (by push_cast; ring)]
  rw [Grid.read_at g w h V hel (a + 2) b (by omega) (by omega) (by push_cast; ring)]
  rw [Grid.read_at g w h V hel (a + 2) (b + 1) (by omega) (by omega) (by push_cast; ring)]
  rw [Grid.read_at g w h V hel (a + 2) (b + 2) (by omega) (by omega) (by push_cast; ring)]
  rw [Grid.read_at g w h V hel (a + 1) (b + 2) (by omega) (by omega) (by push_cast; ring)]
  rw [Grid.read_at g w h V hel a (b + 2) (by omega) (by omega) (by push_cast; ring)]
  rw [Grid.read_at g w h V hel a (b + 1) (by omega) (by omega) (by push_cast; ring)]
  rfl

/-! ### The per-cell step on the two blinker generations -/

theorem gen1_step (g : Grid) (w h : Nat) (hw : 5 ≤ w) (hh : 5 ≤ h)
    (hgw : g.width = w) (hgh : g.height = h)
    (hct : g.cell_types = mkCellTypes w h)
    (hel : g.cells.elems = rowMajor w h bH)
    (hprops : ∀ p ∈ g.cells.props, p.1 < 0)
    (i j : Nat) (hi : i < h) (hj : j < w) :
    ∃ p, g.cellStep i j = some p ∧ p.1 = bV i j := by
  have step : ∀ n : JsNum, g.calcLivingNeighbors i j = some n →
      (lifeRule (g.getCell i j) n j).1 = bV i j →
      ∃ p, g.cellStep i j = some p ∧ p.1 = bV i j :=
    fun n hn hv => ⟨_, g.cellStep_eq i j n hn, hv⟩
  by_cases hi0 : i = 0
  · subst hi0
    by_cases hj0 : j = 0
    · subst hj0
      refine step _ (count_TL g w h bH hgw hct hel (by omega) (by omega)) ?_
      rw [Grid.getCell_at g w h bH hgw hgh hel 0 0 (by omega) (by omega) (by omega)]
      decide
    · by_cases hjw : j + 1 = w
      · obtain ⟨b, rfl⟩ : ∃ b, j = b + 1 := ⟨j - 1, by omega⟩
        refine step _ (count_TR g w h bH hgw hct hel b (by omega) (by omega)) ?_
        rw [lifeRule_not_live_num _
          (Grid.getCell_not_live g w h bH hgw hgh hel 0 (b + 1) (by omega) (by omega)
            (by rw [bH_zero (by omega)]; decide))
          (by rw [bH_zero (by omega), bH_zero (by omega), bH_zero (by omega)]; decide)
          (b + 1)]
        exact (bV_zero (by omega)).symm
      · obtain ⟨b, rfl⟩ : ∃ b, j = b + 1 := ⟨j - 1, by omega⟩
        refine step _ (count_TOP g w h bH hgw hct hel b (by omega) (by omega)) ?_
        rw [lifeRule_not_live_num _
          (Grid.getCell_not_live g w h bH hgw hgh hel 0 (b + 1) (by omega) (by omega)
            (by rw [bH_zero (by omega)]; decide))
          (by rw [bH_zero (by omega), bH_zero (by omega), bH_zero (by omega),
            bH_zero (by omega), bH_zero (by omega)]; decide) (b + 1)]
        exact (bV_zero (by omega)).symm
  · by_cases hih : i + 1 = h
    · obtain ⟨a, rfl⟩ : ∃ a, i = a + 1 := ⟨i - 1, by omega⟩
      by_cases hj0 : j = 0
      · subst hj0
        refine step _ (count_BL g w h bH hgw hct hel a (by omega) (by omega)) ?_
        rw [lifeRule_not_live_num _
          (Grid.getCell_not_live g w h bH hgw hgh hel (a + 1) 0 (by omega) (by omega)
            (by rw [bH_zero (by omega)]; decide))
          (by rw [bH_zero (by omega), bH_zero (by omega), bH_zero (by omega)]; decide) 0]
        exact (bV_zero (by omega)).symm
      · by_cases hji : j = a + 1
        · subst hji
          refine step _ (count_BR g w h bH hgw hct hel a (by omega) (by omega)) ?_
          rw [lifeRule_not_live_num _
            (Grid.getCell_not_live g w h bH hgw hgh hel (a + 1) (a + 1) (by omega)
              (by omega) (by rw [bH_zero (by omega)]; decide))
            (by rw [bH_zero (by omega), bH_zero (by omega), bH_zero (by omega)]; decide)
            (a + 1)]
          exact (bV_zero (by omega)).symm
        · obtain ⟨c, rfl⟩ : ∃ c, j = c + 1 := ⟨j - 1, by omega⟩
          refine step _ (count_bottom_row g w h bH hgw hct hel hprops a c (by omega)
            (by omega) (by omega)) ?_
          rw [lifeRule_not_live_nan _
            (Grid.getCell_not_live g w h bH hgw hgh hel (a + 1) (c + 1) (by omega)
              (by omega) (by rw [bH_zero (by omega)]; decide)) (c + 1)]
          exact (bV_zero (by omega)).symm
    · by_cases hj0 : j = 0
      · subst hj0
        by_cases hi1 : i = 1
        · subst hi1
          refine step _ (count_LEFT g w h bH hgw hct hel 0 (by omega) (by omega)) ?_
          rw [Grid.getCell_at g w h bH hgw hgh hel 1 0 (by omega) (by omega) (by omega)]
          decide
        · by_cases hi2 : i = 2
          · subst hi2
            refine step _ (count_LEFT g w h bH hgw hct hel 1 (by omega) (by omega)) ?_
            rw [Grid.getCell_at g w h bH hgw hgh hel 2 0 (by omega) (by omega) (by omega)]
            decide
          · by_cases hi3 : i = 3
            · subst hi3
              refine step _ (count_LEFT g w h bH hgw hct hel 2 (by omega) (by omega)) ?_
              rw [Grid.getCell_at g w h bH hgw hgh hel 3 0 (by omega) (by omega) (by omega)]
              decide
            · obtain ⟨a, rfl⟩ : ∃ a, i = a + 1 := ⟨i - 1, by omega⟩
              refine step _ (count_LEFT g w h bH hgw hct hel a (by omega) (by omega)) ?_
              rw [lifeRule_not_live_num _
                (Grid.getCell_not_live g w h bH hgw hgh hel (a + 1) 0 (by omega)
                  (by omega) (by rw [bH_zero (by omega)]; decide))
                (by rw [bH_zero (by omega), bH_zero (by omega), bH_zero (by omega),
                  bH_zero (by omega), bH_zero (by omega)]; decide) 0]
              exact (bV_zero (by omega)).symm
      · by_cases hjw : j + 1 = w
        · obtain ⟨a, rfl⟩ : ∃ a, i = a + 1 := ⟨i - 1, by omega⟩
          obtain ⟨b, rfl⟩ : ∃ b, j = b + 1 := ⟨j - 1, by omega⟩
          refine step _ (count_right_col g w h bH hgw hct hel a b (by omega)
            (by omega)) ?_
          have h1 := bH_binary (a + 1) b
          have h2 := bH_binary a b
          rw [lifeRule_not_live_num _
            (Grid.getCell_not_live g w h bH hgw hgh hel (a + 1) (b + 1) (by omega)
              (by omega) (by rw [bH_zero (by omega)]; decide))
            (by rw [@bH_zero a (b + 1) (by omega), @bH_zero (a + 1) 0 (by omega),
              @bH_zero (a + 2) 0 (by omega)]; omega)
            (b + 1)]
          exact (bV_zero (by omega)).symm
        · by_cases hi4 : 4 ≤ i
          · obtain ⟨a, rfl⟩ : ∃ a, i = a + 1 := ⟨i - 1, by omega⟩
            obtain ⟨b, rfl⟩ : ∃ b, j = b + 1 := ⟨j - 1, by omega⟩
            refine step _ (count_CENTER g w h bH hgw hct hel a b (by omega)
              (by omega)) ?_
            rw [lifeRule_not_live_num _
              (Grid.getCell_not_live g w h bH hgw hgh hel (a + 1) (b + 1) (by omega)
                (by omega) (by rw [bH_zero (by omega)]; decide))
              (by rw [bH_zero (by omega), bH_zero (by omega), bH_zero (by omega),
                bH_zero (by omega), bH_zero (by omega), bH_zero (by omega),
                bH_zero (by omega), bH_zero (by omega)]; decide) (b + 1)]
            exact (bV_zero (by omega)).symm
          · by_cases hj5 : 5 ≤ j
            · obtain ⟨a, rfl⟩ : ∃ a, i = a + 1 := ⟨i - 1, by omega⟩
              obtain ⟨b, rfl⟩ : ∃ b, j = b + 1 := ⟨j - 1, by omega⟩
              refine step _ (count_CENTER g w h bH hgw hct hel a b (by omega)
                (by omega)) ?_
              rw [lifeRule_not_live_num _
                (Grid.getCell_not_live g w h bH hgw hgh hel (a + 1) (b + 1) (by omega)
                  (by omega) (by rw [bH_zero (by omega)]; decide))
                (by rw [bH_zero (by omega), bH_zero (by omega), bH_zero (by omega),
                  bH_zero (by omega), bH_zero (by omega), bH_zero (by omega),
                  bH_zero (by omega), bH_zero (by omega)]; decide) (b + 1)]
              exact (bV_zero (by omega)).symm
            · by_cases hi1 : i = 1
              · subst hi1
                by_cases hj1 : j = 1
                · subst hj1
                  refine step _ (count_CENTER g w h bH hgw hct hel 0 0 (by omega)
                    (by omega)) ?_
                  rw [Grid.getCell_at g w h bH hgw hgh hel 1 1 (by omega) (by omega)
                    (by omega)]
                  decide
                · by_cases hj2 : j = 2
                  · subst hj2
                    refine step _ (count_CENTER g w h bH hgw hct hel 0 1 (by omega)
                      (by omega)) ?_
                    rw [Grid.getCell_at g w h bH hgw hgh hel 1 2 (by omega) (by omega)
                      (by omega)]
                    decide
                  · by_cases hj3 : j = 3
                    · subst hj3
                      refine step _ (count_CENTER g w h bH hgw hct hel 0 2 (by omega)
                        (by omega)) ?_
                      rw [Grid.getCell_at g w h bH hgw hgh hel 1 3 (by omega) (by omega)
                        (by omega)]
                      decide
                    · have hj4 : j = 4 := by omega
                      subst hj4
                      refine step _ (count_CENTER g w h bH hgw hct hel 0 3 (by omega)
                        (by omega)) ?_
                      rw [Grid.getCell_at g w h bH hgw hgh hel 1 4 (by omega) (by omega)
                        (by omega)]
                      decide
              · by_cases hi2 : i = 2
                · subst hi2
                  by_cases hj1 : j = 1
                  · subst hj1
                    refine step _ (count_CENTER g w h bH hgw hct hel 1 0 (by omega)
                      (by omega)) ?_
                    rw [Grid.getCell_at g w h bH hgw hgh hel 2 1 (by omega) (by omega)
                      (by omega)]
                    decide
                  · by_cases hj2 : j = 2
                    · subst hj2
                      refine step _ (count_CENTER g w h bH hgw hct hel 1 1 (by omega)
                        (by omega)) ?_
                      rw [Grid.getCell_at g w h bH hgw hgh hel 2 2 (by omega) (by omega)
                        (by omega)]
                      decide
                    · by_cases hj3 : j = 3
                      · subst hj3
                        refine step _ (count_CENTER g w h bH hgw hct hel 1 2 (by omega)
                          (by omega)) ?_
                        rw [Grid.getCell_at g w h bH hgw hgh hel 2 3 (by omega) (by omega)
                          (by omega)]
                        decide
                      · have hj4 : j = 4 := by omega
                        subst hj4
                        refine step _ (count_CENTER g w h bH hgw hct hel 1 3 (by omega)
                          (by omega)) ?_
                        rw [Grid.getCell_at g w h bH hgw hgh hel 2 4 (by omega) (by omega)
                          (by omega)]
                        decide
                · have hi3 : i = 3 := by omega
                  subst hi3
                  by_cases hj1 : j = 1
                  · subst hj1
                    refine step _ (count_CENTER g w h bH hgw hct hel 2 0 (by omega)
                      (by omega)) ?_
                    rw [Grid.getCell_at g w h bH hgw hgh hel 3 1 (by omega) (by omega)
                      (by omega)]
                    decide
                  · by_cases hj2 : j = 2
                    · subst hj2
                      refine step _ (count_CENTER g w h bH hgw hct hel 2 1 (by omega)
                        (by omega)) ?_
                      rw [Grid.getCell_at g w h bH hgw hgh hel 3 2 (by omega) (by omega)
                        (by omega)]
                      decide
                    · by_cases hj3 : j = 3
                      · subst hj3
                        refine step _ (count_CENTER g w h bH hgw hct hel 2 2 (by omega)
                          (by omega)) ?_
                        rw [Grid.getCell_at g w h bH hgw hgh hel 3 3 (by omega) (by omega)
                          (by omega)]
                        decide
                      · have hj4 : j = 4 := by omega
                        subst hj4
                        refine step _ (count_CENTER g w h bH hgw hct hel 2 3 (by omega)
                          (by omega)) ?_
                        rw [Grid.getCell_at g w h bH hgw hgh hel 3 4 (by omega) (by omega)
                          (by omega)]
                        decide

theorem gen2_step (g : Grid) (w h : Nat) (hw : 5 ≤ w) (hh : 5 ≤ h)
    (hgw : g.width = w) (hgh : g.height = h)
    (hct : g.cell_types = mkCellTypes w h)
    (hel : g.cells.elems = rowMajor w h bV)
    (hprops : ∀ p ∈ g.cells.props, p.1 < 0)
    (i j : Nat) (hi : i < h) (hj : j < w) :
    ∃ p, g.cellStep i j = some p ∧ p.1 = bH i j := by
  have step : ∀ n : JsNum, g.calcLivingNeighbors i j = some n →
      (lifeRule (g.getCell i j) n j).1 = bH i j →
      ∃ p, g.cellStep i j = some p ∧ p.1 = bH i j :=
    fun n hn hv => ⟨_, g.cellStep_eq i j n hn, hv⟩
  by_cases hi0 : i = 0
  · subst hi0
    by_cases hj0 : j = 0
    · subst hj0
      refine step _ (count_TL g w h bV hgw hct hel (by omega) (by omega)) ?_
      rw [Grid.getCell_at g w h bV hgw hgh hel 0 0 (by omega) (by omega) (by omega)]
      decide
    · by_cases hjw : j + 1 = w
      · obtain ⟨b, rfl⟩ : ∃ b, j = b + 1 := ⟨j - 1, by omega⟩
        refine step _ (count_TR g w h bV hgw hct hel b (by omega) (by omega)) ?_
        rw [lifeRule_not_live_num _
          (Grid.getCell_not_live g w h bV hgw hgh hel 0 (b + 1) (by omega) (by omega)
            (by rw [bV_zero (by omega)]; decide))
          (by rw [bV_zero (by omega), bV_zero (by omega), bV_zero (by omega)]; decide)
          (b + 1)]
        exact (bH_zero (by omega)).symm
      · by_cases hj1 : j = 1
        · subst hj1
          refine step _ (count_TOP g w h bV hgw hct hel 0 (by omega) (by omega)) ?_
          rw [Grid.getCell_at g w h bV hgw hgh hel 0 1 (by omega) (by omega) (by omega)]
          decide
        · by_cases hj2 : j = 2
          · subst hj2
            refine step _ (count_TOP g w h bV hgw hct hel 1 (by omega) (by omega)) ?_
            rw [Grid.getCell_at g w h bV hgw hgh hel 0 2 (by omega) (by omega) (by omega)]
            decide
          · by_cases hj3 : j = 3
            · subst hj3
              refine step _ (count_TOP g w h bV hgw hct hel 2 (by omega) (by omega)) ?_
              rw [Grid.getCell_at g w h bV hgw hgh hel 0 3 (by omega) (by omega) (by omega)]
              decide
            · obtain ⟨b, rfl⟩ : ∃ b, j = b + 1 := ⟨j - 1, by omega⟩
              refine step _ (count_TOP g w h bV hgw hct hel b (by omega) (by omega)) ?_
              rw [lifeRule_not_live_num _
                (Grid.getCell_not_live g w h bV hgw hgh hel 0 (b + 1) (by omega) (by omega)
                  (by rw [bV_zero (by omega)]; decide))
                (by rw [bV_zero (by omega), bV_zero (by omega), bV_zero (by omega),
                  bV_zero (by omega), bV_zero (by omega)]; decide) (b + 1)]
              exact (bH_zero (by omega)).symm
  · by_cases hih : i + 1 = h
    · obtain ⟨a, rfl⟩ : ∃ a, i = a + 1 := ⟨i - 1, by omega⟩
      by_cases hj0 : j = 0
      · subst hj0
        refine step _ (count_BL g w h bV hgw hct hel a (by omega) (by omega)) ?_
        rw [lifeRule_not_live_num _
          (Grid.getCell_not_live g w h bV hgw hgh hel (a + 1) 0 (by omega) (by omega)
            (by rw [bV_zero (by omega)]; decide))
          (by rw [bV_zero (by omega), bV_zero (by omega), bV_zero (by omega)]; decide) 0]
        exact (bH_zero (by omega)).symm
      · by_cases hji : j = a + 1
        · subst hji
          refine step _ (count_BR g w h bV hgw hct hel a (by omega) (by omega)) ?_
          rw [lifeRule_not_live_num _
            (Grid.getCell_not_live g w h bV hgw hgh hel (a + 1) (a + 1) (by omega)
              (by omega) (by rw [bV_zero (by omega)]; decide))
            (by rw [bV_zero (by omega), bV_zero (by omega), bV_zero (by omega)]; decide)
            (a + 1)]
          exact (bH_zero (by omega)).symm
        · obtain ⟨c, rfl⟩ : ∃ c, j = c + 1 := ⟨j - 1, by omega⟩
          refine step _ (count_bottom_row g w h bV hgw hct hel hprops a c (by omega)
            (by omega) (by omega)) ?_
          rw [lifeRule_not_live_nan _
            (Grid.getCell_not_live g w h bV hgw hgh hel (a + 1) (c + 1) (by omega)
              (by omega) (by rw [bV_zero (by omega)]; decide)) (c + 1)]
          exact (bH_zero (by omega)).symm
    · by_cases hj0 : j = 0
      · subst hj0
        obtain ⟨a, rfl⟩ : ∃ a, i = a + 1 := ⟨i - 1, by omega⟩
        refine step _ (count_LEFT g w h bV hgw hct hel a (by omega) (by omega)) ?_
        rw [lifeRule_not_live_num _
          (Grid.getCell_not_live g w h bV hgw hgh hel (a + 1) 0 (by omega) (by omega)
            (by rw [bV_zero (by omega)]; decide))
          (by rw [bV_zero (by omega), bV_zero (by omega), bV_zero (by omega),
            bV_zero (by omega), bV_zero (by omega)]; decide) 0]
        exact (bH_zero (by omega)).symm
      · by_cases hjw : j + 1 = w
        · obtain ⟨a, rfl⟩ : ∃ a, i = a + 1 := ⟨i - 1, by omega⟩
          obtain ⟨b, rfl⟩ : ∃ b, j = b + 1 := ⟨j - 1, by omega⟩
          refine step _ (count_right_col g w h bV hgw hct hel a b (by omega)
            (by omega)) ?_
          rw [lifeRule_not_live_num _
            (Grid.getCell_not_live g w h bV hgw hgh hel (a + 1) (b + 1) (by omega)
              (by omega) (by rw [bV_zero (by omega)]; decide))
            (by rw [bV_zero (by omega), bV_zero (by omega), bV_zero (by omega),
              bV_zero (by omega), bV_zero (by omega)]; decide) (b + 1)]
          exact (bH_zero (by omega)).symm
        · by_cases hi5 : 5 ≤ i
          · obtain ⟨a, rfl⟩ : ∃ a, i = a + 1 := ⟨i - 1, by omega⟩
            obtain ⟨b, rfl⟩ : ∃ b, j = b + 1 := ⟨j - 1, by omega⟩
            refine step _ (count_CENTER g w h bV hgw hct hel a b (by omega)
              (by omega)) ?_
            rw [lifeRule_not_live_num _
              (Grid.getCell_not_live g w h bV hgw hgh hel (a + 1) (b + 1) (by omega)
                (by omega) (by rw [bV_zero (by omega)]; decide))
              (by rw [bV_zero (by omega), bV_zero (by omega), bV_zero (by omega),
                bV_zero (by omega), bV_zero (by omega), bV_zero (by omega),
                bV_zero (by omega), bV_zero (by omega)]; decide) (b + 1)]
            exact (bH_zero (by omega)).symm
          · by_cases hj4 : 4 ≤ j
            · obtain ⟨a, rfl⟩ : ∃ a, i = a + 1 := ⟨i - 1, by omega⟩
              obtain ⟨b, rfl⟩ : ∃ b, j = b + 1 := ⟨j - 1, by omega⟩
              refine step _ (count_CENTER g w h bV hgw hct hel a b (by omega)
                (by omega)) ?_
              rw [lifeRule_not_live_num _
                (Grid.getCell_not_live g w h bV hgw hgh hel (a + 1) (b + 1) (by omega)
                  (by omega) (by rw [bV_zero (by omega)]; decide))
                (by rw [bV_zero (by omega), bV_zero (by omega), bV_zero (by omega),
                  bV_zero (by omega), bV_zero (by omega), bV_zero (by omega),
                  bV_zero (by omega), bV_zero (by omega)]; decide) (b + 1)]
              exact (bH_zero (by omega)).symm
            · by_cases hi1 : i = 1
              · subst hi1
                by_cases hj1 : j = 1
                · subst hj1
                  refine step _ (count_CENTER g w h bV hgw hct hel 0 0 (by omega)
                    (by omega)) ?_
                  rw [Grid.getCell_at g w h bV hgw hgh hel 1 1 (by omega) (by omega)
                    (by omega)]
                  decide
                · by_cases hj2 : j = 2
                  · subst hj2
                    refine step _ (count_CENTER g w h bV hgw hct hel 0 1 (by omega)
                      (by omega)) ?_
                    rw [Grid.getCell_at g w h bV hgw hgh hel 1 2 (by omega) (by omega)
                      (by omega)]
                    decide
                  · have hj3 : j = 3 := by omega
                    subst hj3
                    refine step _ (count_CENTER g w h bV hgw hct hel 0 2 (by omega)
                      (by omega)) ?_
                    rw [Grid.getCell_at g w h bV hgw hgh hel 1 3 (by omega) (by omega)
                      (by omega)]
                    decide
              · by_cases hi2 : i = 2
                · subst hi2
                  by_cases hj1 : j = 1
                  · subst hj1
                    refine step _ (count_CENTER g w h bV hgw hct hel 1 0 (by omega)
                      (by omega)) ?_
                    rw [Grid.getCell_at g w h bV hgw hgh hel 2 1 (by omega) (by omega)
                      (by omega)]
                    decide
                  · by_cases hj2 : j = 2
                    · subst hj2
                      refine step _ (count_CENTER g w h bV hgw hct hel 1 1 (by omega)
                        (by omega)) ?_
                      rw [Grid.getCell_at g w h bV hgw hgh hel 2 2 (by omega) (by omega)
                        (by omega)]
                      decide
                    · have hj3 : j = 3 := by omega
                      subst hj3
                      refine step _ (count_CENTER g w h bV hgw hct hel 1 2 (by omega)
                        (by omega)) ?_
                      rw [Grid.getCell_at g w h bV hgw hgh hel 2 3 (by omega) (by omega)
                        (by omega)]
                      decide
                · by_cases hi3 : i = 3
                  · subst hi3
                    by_cases hj1 : j = 1
                    · subst hj1
                      refine step _ (count_CENTER g w h bV hgw hct hel 2 0 (by omega)
                        (by omega)) ?_
                      rw [Grid.getCell_at g w h bV hgw hgh hel 3 1 (by omega) (by omega)
                        (by omega)]
                      decide
                    · by_cases hj2 : j = 2
                      · subst hj2
                        refine step _ (count_CENTER g w h bV hgw hct hel 2 1 (by omega)
                          (by omega)) ?_
                        rw [Grid.getCell_at g w h bV hgw hgh hel 3 2 (by omega) (by omega)
                          (by omega)]
                        decide
                      · have hj3 : j = 3 := by omega
                        subst hj3
                        refine step _ (count_CENTER g w h bV hgw hct hel 2 2 (by omega)
                          (by omega)) ?_
                        rw [Grid.getCell_at g w h bV hgw hgh hel 3 3 (by omega) (by omega)
                          (by omega)]
                        decide
                  · have hi4 : i = 4 := by omega
                    subst hi4
                    by_cases hj1 : j = 1
                    · subst hj1
                      refine step _ (count_CENTER g w h bV hgw hct hel 3 0 (by omega)
                        (by omega)) ?_
                      rw [Grid.getCell_at g w h bV hgw hgh hel 4 1 (by omega) (by omega)
                        (by omega)]
                      decide
                    · by_cases hj2 : j = 2
                      · subst hj2
                        refine step _ (count_CENTER g w h bV hgw hct hel 3 1 (by omega)
                          (by omega)) ?_
                        rw [Grid.getCell_at g w h bV hgw hgh hel 4 2 (by omega) (by omega)
                          (by omega)]
                        decide
                      · have hj3 : j = 3 := by omega
                        subst hj3
                        refine step _ (count_CENTER g w h bV hgw hct hel 3 2 (by omega)
                          (by omega)) ?_
                        rw [Grid.getCell_at g w h bV hgw hgh hel 4 3 (by omega) (by omega)
                          (by omega)]
                        decide

/-- C6: on any grid with width ≥ 5 and height ≥ 5 whose only LIVE cells are
(2,1), (2,2), (2,3) — i.e. whose cell buffer is `blinkerH` — one `update`
yields exactly the LIVE cells (1,2), (2,2), (3,2) (`blinkerV`), and a second
`update` restores exactly the original three LIVE cells. -/
theorem c6_blinker_oscillates (g : Grid) (w h : Nat) (hw : 5 ≤ w) (hh : 5 ≤ h)
    (hgw : g.width = w) (hgh : g.height = h)
    (hct : g.cell_types = mkCellTypes w h)
    (hel : g.cells.elems = blinkerH w h)
    (hcp : ∀ p ∈ g.cells.props, p.1 < 0)
    (hnp : ∀ p ∈ g.next.props, p.1 < 0)
    (hnl : g.next.elems.length = w * h) :
    updElems g = some (blinkerV w h) ∧ upd2Elems g = some (blinkerH w h) := by
  have hel' : g.cells.elems = rowMajor w h bH := hel
  obtain ⟨g₁, hu₁, hW₁, hH₁, hT₁, hE₁, hP₁, hN₁⟩ :=
    Grid.update_of_steps g bV
      (fun i j hi hj =>
        gen1_step g w h hw hh hgw hgh hct hel' hcp i j (hgh ▸ hi) (hgw ▸ hj))
      (by rw [hgw, hgh]; exact hnl)
  have hE₁' : g₁.cells.elems = rowMajor w h bV := by
    rw [hE₁, hgw, hgh]
  have hcp₁ : ∀ p ∈ g₁.cells.props, p.1 < 0 := by
    rw [hP₁]; exact hnp
  obtain ⟨g₂, hu₂, hW₂, hH₂, hT₂, hE₂, hP₂, hN₂⟩ :=
    Grid.update_of_steps g₁ bH
      (fun i j hi hj =>
        gen2_step g₁ w h hw hh (hW₁.trans hgw) (hH₁.trans hgh) (hT₁.trans hct)
          hE₁' hcp₁ i j ((hH₁.trans hgh) ▸ hi) ((hW₁.trans hgw) ▸ hj))
      (by
        rw [hN₁, hW₁, hH₁, hgw, hgh, hel']
        rw [rowMajor_length]
        exact Nat.mul_comm h w)
  constructor
  · unfold updElems
    rw [hu₁, Option.map_some', hE₁, hgw, hgh]
    rfl
  · unfold upd2Elems
    rw [hu₁, Option.some_bind, hu₂, Option.map_some', hE₂, hW₁, hH₁, hgw, hgh]
    rfl

/-- Witness for C6: the 5×5 grid with the horizontal blinker placed by three
`setCell` calls oscillates to the vertical blinker and back. -/
theorem c6_witness :
    updElems ((((Grid.init 5 5).setCell 2 1 LIVE_CELL).setCell 2 2
        LIVE_CELL).setCell 2 3 LIVE_CELL) = some (blinkerV 5 5) ∧
    upd2Elems ((((Grid.init 5 5).setCell 2 1 LIVE_CELL).setCell 2 2
        LIVE_CELL).setCell 2 3 LIVE_CELL) = some (blinkerH 5 5) :=
  c6_blinker_oscillates
    ((((Grid.init 5 5).setCell 2 1 LIVE_CELL).setCell 2 2 LIVE_CELL).setCell 2 3
      LIVE_CELL) 5 5 (by norm_num) (by norm_num) rfl rfl rfl (by decide)
    (by decide) (by decide) (by decide)

end GameOfLife
